/-
  Verification of the Trident TGUI 9440/96xx accelerator command engine
  (src/video/vid_tgui9440.c) against its natural-language specification.

  The C code is shallowly embedded: machine integers become `Nat` (unsigned)
  or `Int` (signed) with explicit wrapping where the C width matters, the
  `tgui_t`/`svga_t` state becomes a Lean structure, and the accelerator's
  while-loops become fuel-indexed structural recursions (the fuel chosen by
  the top-level entry point is large enough that it is never exhausted for
  register values reachable through the register file).
-/
import Mathlib

namespace Tgui

/-- Wrap an integer to the range of a C `int16_t` (two's complement). -/
def i16 (x : Int) : Int := (x + 32768) % 65536 - 32768

/-- Unsigned 16-bit view of a C `int16_t` value (its two's-complement bits). -/
def u16 (x : Int) : Nat := (x % 65536).toNat

/-- Wrap an integer to a C `uint32_t` value. -/
def u32 (x : Int) : Nat := (x % 4294967296).toNat

/-- 32-bit complement, the effect of C `~` on a `uint32_t` operand. -/
def cNot (x : Nat) : Nat := x ^^^ 0xffffffff

/-- Truncation applied when a raster-operation result is stored at the active
pixel-width class: the `WRITE` macro stores through a `uint8_t`, `uint16_t` or
`uint32_t` pointer according to `accel.bpp` (0, 1 or 3). -/
def accel_width_mask (bpp : Nat) : Nat :=
  if bpp = 0 then 0xff else if bpp = 1 then 0xffff else 0xffffffff

set_option maxHeartbeats 4000000 in
/-- The 256-way ternary raster-operation unit, translated from the `ROPMIX`
macro. Operands are 32-bit values; `cNot` is the 32-bit complement. The C
switch has no default arm and the `MIX` macro initialises `out = 0`, so
unmatched codes yield 0. -/
def ROPMIX (R D P S : Nat) : Nat :=
  match R with
  | 0x00 => 0
  | 0x01 => cNot (D ||| (P ||| S))
  | 0x02 => D &&& cNot (P ||| S)
  | 0x03 => cNot (P ||| S)
  | 0x04 => S &&& cNot (D ||| P)
  | 0x05 => cNot (D ||| P)
  | 0x06 => cNot (P ||| cNot (D ^^^ S))
  | 0x07 => cNot (P ||| (D &&& S))
  | 0x08 => S &&& (D &&& cNot P)
  | 0x09 => cNot (P ||| (D ^^^ S))
  | 0x0a => D &&& cNot P
  | 0x0b => cNot (P ||| (S &&& cNot D))
  | 0x0c => S &&& cNot P
  | 0x0d => cNot (P ||| (D &&& cNot S))
  | 0x0e => cNot (P ||| cNot (D ||| S))
  | 0x0f => cNot P
  | 0x10 => P &&& cNot (D ||| S)
  | 0x11 => cNot (D ||| S)
  | 0x12 => cNot (S ||| cNot (D ^^^ P))
  | 0x13 => cNot (S ||| (D &&& P))
  | 0x14 => cNot (D ||| cNot (P ^^^ S))
  | 0x15 => cNot (D ||| (P &&& S))
  | 0x16 => P ^^^ (S ^^^ (D &&& cNot (P &&& S)))
  | 0x17 => cNot (S ^^^ ((S ^^^ P) &&& (D ^^^ S)))
  | 0x18 => (S ^^^ P) &&& (P ^^^ D)
  | 0x19 => cNot (S ^^^ (D &&& cNot (P &&& S)))
  | 0x1a => P ^^^ (D ||| (S &&& P))
  | 0x1b => cNot (S ^^^ (D &&& (P ^^^ S)))
  | 0x1c => P ^^^ (S ||| (D &&& P))
  | 0x1d => cNot (D ^^^ (S &&& (P ^^^ D)))
  | 0x1e => P ^^^ (D ||| S)
  | 0x1f => cNot (P &&& (D ||| S))
  | 0x20 => D &&& (P &&& cNot S)
  | 0x21 => cNot (S ||| (D ^^^ P))
  | 0x22 => D &&& cNot S
  | 0x23 => cNot (S ||| (P &&& cNot D))
  | 0x24 => (S ^^^ P) &&& (D ^^^ S)
  | 0x25 => cNot (P ^^^ (D &&& cNot (S &&& P)))
  | 0x26 => S ^^^ (D ||| (P &&& S))
  | 0x27 => S ^^^ (D ||| cNot (P ^^^ S))
  | 0x28 => D &&& (P ^^^ S)
  | 0x29 => cNot (P ^^^ (S ^^^ (D ||| (P &&& S))))
  | 0x2a => D &&& cNot (P &&& S)
  | 0x2b => cNot (S ^^^ ((S ^^^ P) &&& (P ^^^ D)))
  | 0x2c => S ^^^ (P &&& (D ||| S))
  | 0x2d => P ^^^ (S ||| cNot D)
  | 0x2e => P ^^^ (S ||| (D ^^^ P))
  | 0x2f => cNot (P &&& (S ||| cNot D))
  | 0x30 => P &&& cNot S
  | 0x31 => cNot (S ||| (D &&& cNot P))
  | 0x32 => S ^^^ (D ||| (P ||| S))
  | 0x33 => cNot S
  | 0x34 => S ^^^ (P ||| (D &&& S))
  | 0x35 => S ^^^ (P ||| cNot (D ^^^ S))
  | 0x36 => S ^^^ (D ||| P)
  | 0x37 => cNot (S &&& (D ||| P))
  | 0x38 => P ^^^ (S &&& (D ||| P))
  | 0x39 => S ^^^ (P ||| cNot D)
  | 0x3a => S ^^^ (P ||| (D ^^^ S))
  | 0x3b => cNot (S &&& (P ||| cNot D))
  | 0x3c => P ^^^ S
  | 0x3d => S ^^^ (P ||| cNot (D ||| S))
  | 0x3e => S ^^^ (P ||| (D &&& cNot S))
  | 0x3f => cNot (P &&& S)
  | 0x40 => P &&& (S &&& cNot D)
  | 0x41 => cNot (D ||| (P ^^^ S))
  | 0x42 => (S ^^^ D) &&& (P ^^^ D)
  | 0x43 => cNot (S ^^^ (P &&& cNot (D &&& S)))
  | 0x44 => S &&& cNot D
  | 0x45 => cNot (D ||| (P &&& cNot S))
  | 0x46 => D ^^^ (S ||| (P &&& D))
  | 0x47 => cNot (P ^^^ (S &&& (D ^^^ P)))
  | 0x48 => S &&& (D ^^^ P)
  | 0x49 => cNot (P ^^^ (D ^^^ (S ||| (P &&& D))))
  | 0x4a => D ^^^ (P &&& (S ||| D))
  | 0x4b => P ^^^ (D ||| cNot S)
  | 0x4c => S &&& cNot (D &&& P)
  | 0x4d => cNot (S ^^^ ((S ^^^ P) ||| (D ^^^ S)))
  | 0x4e => P ^^^ (D ||| (S ^^^ P))
  | 0x4f => cNot (P &&& (D ||| cNot S))
  | 0x50 => P &&& cNot D
  | 0x51 => cNot (D ||| (S &&& cNot P))
  | 0x52 => D ^^^ (P ||| (S &&& D))
  | 0x53 => cNot (S ^^^ (P &&& (D ^^^ S)))
  | 0x54 => cNot (D ||| cNot (P ||| S))
  | 0x55 => cNot D
  | 0x56 => D ^^^ (P ||| S)
  | 0x57 => cNot (D &&& (P ||| S))
  | 0x58 => P ^^^ (D &&& (S ||| P))
  | 0x59 => D ^^^ (P ||| cNot S)
  | 0x5a => D ^^^ P
  | 0x5b => D ^^^ (P ||| cNot (S ||| D))
  | 0x5c => D ^^^ (P ||| (S ^^^ D))
  | 0x5d => cNot (D &&& (P ||| cNot S))
  | 0x5e => D ^^^ (P ||| (S &&& cNot D))
  | 0x5f => cNot (D &&& P)
  | 0x60 => P &&& (D ^^^ S)
  | 0x61 => cNot (D ^^^ (S ^^^ (P ||| (D &&& S))))
  | 0x62 => D ^^^ (S &&& (P ||| D))
  | 0x63 => S ^^^ (D ||| cNot P)
  | 0x64 => S ^^^ (D &&& (P ||| S))
  | 0x65 => D ^^^ (S ||| cNot P)
  | 0x66 => D ^^^ S
  | 0x67 => S ^^^ (D ||| cNot (P ||| S))
  | 0x68 => cNot (D ^^^ (S ^^^ (P ||| cNot (D ||| S))))
  | 0x69 => cNot (P ^^^ (D ^^^ S))
  | 0x6a => D ^^^ (P &&& S)
  | 0x6b => cNot (P ^^^ (S ^^^ (D &&& (P ||| S))))
  | 0x6c => S ^^^ (D &&& P)
  | 0x6d => cNot (P ^^^ (D ^^^ (S &&& (P ||| D))))
  | 0x6e => S ^^^ (D &&& (P ||| cNot S))
  | 0x6f => cNot (P &&& cNot (D ^^^ S))
  | 0x70 => P &&& cNot (D &&& S)
  | 0x71 => cNot (S ^^^ ((S ^^^ D) &&& (P ^^^ D)))
  | 0x72 => S ^^^ (D ||| (P ^^^ S))
  | 0x73 => cNot (S &&& (D ||| cNot P))
  | 0x74 => D ^^^ (S ||| (P ^^^ D))
  | 0x75 => cNot (D &&& (S ||| cNot P))
  | 0x76 => S ^^^ (D ||| (P &&& cNot S))
  | 0x77 => cNot (D &&& S)
  | 0x78 => P ^^^ (D &&& S)
  | 0x79 => cNot (D ^^^ (S ^^^ (P &&& (D ||| S))))
  | 0x7a => D ^^^ (P &&& (S ||| cNot D))
  | 0x7b => cNot (S &&& cNot (D ^^^ P))
  | 0x7c => S ^^^ (P &&& (D ||| cNot S))
  | 0x7d => cNot (D &&& cNot (P ^^^ S))
  | 0x7e => (S ^^^ P) ||| (D ^^^ S)
  | 0x7f => cNot (D &&& (P &&& S))
  | 0x80 => D &&& (P &&& S)
  | 0x81 => cNot ((S ^^^ P) ||| (D ^^^ S))
  | 0x82 => D &&& cNot (P ^^^ S)
  | 0x83 => cNot (S ^^^ (P &&& (D ||| cNot S)))
  | 0x84 => S &&& cNot (D ^^^ P)
  | 0x85 => cNot (P ^^^ (D &&& (S ||| cNot P)))
  | 0x86 => D ^^^ (S ^^^ (P &&& (D ||| S)))
  | 0x87 => cNot (P ^^^ (D &&& S))
  | 0x88 => D &&& S
  | 0x89 => cNot (S ^^^ (D ||| (P &&& cNot S)))
  | 0x8a => D &&& (S ||| cNot P)
  | 0x8b => cNot (D ^^^ (S ||| (P ^^^ D)))
  | 0x8c => S &&& (D ||| cNot P)
  | 0x8d => cNot (S ^^^ (D ||| (P ^^^ S)))
  | 0x8e => S ^^^ ((S ^^^ D) &&& (P ^^^ D))
  | 0x8f => cNot (P &&& cNot (D &&& S))
  | 0x90 => P &&& cNot (D ^^^ S)
  | 0x91 => cNot (S ^^^ (D &&& (P ||| cNot S)))
  | 0x92 => D ^^^ (P ^^^ (S &&& (D ||| P)))
  | 0x93 => cNot (S ^^^ (P &&& D))
  | 0x94 => P ^^^ (S ^^^ (D &&& (P ||| S)))
  | 0x95 => cNot (D ^^^ (P &&& S))
  | 0x96 => D ^^^ (P ^^^ S)
  | 0x97 => P ^^^ (S ^^^ (D ||| cNot (P ||| S)))
  | 0x98 => cNot (S ^^^ (D ||| cNot (P ||| S)))
  | 0x99 => cNot (D ^^^ S)
  | 0x9a => D ^^^ (P &&& cNot S)
  | 0x9b => cNot (S ^^^ (D &&& (P ||| S)))
  | 0x9c => S ^^^ (P &&& cNot D)
  | 0x9d => cNot (D ^^^ (S &&& (P ||| D)))
  | 0x9e => D ^^^ (S ^^^ (P ||| (D &&& S)))
  | 0x9f => cNot (P &&& (D ^^^ S))
  | 0xa0 => D &&& P
  | 0xa1 => cNot (P ^^^ (D ||| (S &&& cNot P)))
  | 0xa2 => D &&& (P ||| cNot S)
  | 0xa3 => cNot (D ^^^ (P ||| (S ^^^ D)))
  | 0xa4 => cNot (P ^^^ (D ||| cNot (S ||| P)))
  | 0xa5 => cNot (P ^^^ D)
  | 0xa6 => D ^^^ (S &&& cNot P)
  | 0xa7 => cNot (P ^^^ (D &&& (S ||| P)))
  | 0xa8 => D &&& (P ||| S)
  | 0xa9 => cNot (D ^^^ (P ||| S))
  | 0xaa => D
  | 0xab => D ||| cNot (P ||| S)
  | 0xac => S ^^^ (P &&& (D ^^^ S))
  | 0xad => cNot (D ^^^ (P ||| (S &&& D)))
  | 0xae => D ||| (S &&& cNot P)
  | 0xaf => D ||| cNot P
  | 0xb0 => P &&& (D ||| cNot S)
  | 0xb1 => cNot (P ^^^ (D ||| (S ^^^ P)))
  | 0xb2 => S ^^^ ((S ^^^ P) ||| (D ^^^ S))
  | 0xb3 => cNot (S &&& cNot (D &&& P))
  | 0xb4 => P ^^^ (S &&& cNot D)
  | 0xb5 => cNot (D ^^^ (P &&& (S ||| D)))
  | 0xb6 => D ^^^ (P ^^^ (S ||| (D &&& P)))
  | 0xb7 => cNot (S &&& (D ^^^ P))
  | 0xb8 => P ^^^ (S &&& (D ^^^ P))
  | 0xb9 => cNot (D ^^^ (S ||| (P &&& D)))
  | 0xba => D ||| (P &&& cNot S)
  | 0xbb => D ||| cNot S
  | 0xbc => S ^^^ (P &&& cNot (D &&& S))
  | 0xbd => cNot ((S ^^^ D) &&& (P ^^^ D))
  | 0xbe => D ||| (P ^^^ S)
  | 0xbf => D ||| cNot (P &&& S)
  | 0xc0 => P &&& S
  | 0xc1 => cNot (S ^^^ (P ||| (D &&& cNot S)))
  | 0xc2 => cNot (S ^^^ (P ||| cNot (D ||| S)))
  | 0xc3 => cNot (P ^^^ S)
  | 0xc4 => S &&& (P ||| cNot D)
  | 0xc5 => cNot (S ^^^ (P ||| (D ^^^ S)))
  | 0xc6 => S ^^^ (D &&& cNot P)
  | 0xc7 => cNot (P ^^^ (S &&& (D ||| P)))
  | 0xc8 => S &&& (D ||| P)
  | 0xc9 => cNot (S ^^^ (P ||| D))
  | 0xca => D ^^^ (P &&& (S ^^^ D))
  | 0xcb => cNot (S ^^^ (P ||| (D &&& S)))
  | 0xcc => S
  | 0xcd => S ||| cNot (D ||| P)
  | 0xce => S ||| (D &&& cNot P)
  | 0xcf => S ||| cNot P
  | 0xd0 => P &&& (S ||| cNot D)
  | 0xd1 => cNot (P ^^^ (S ||| (D ^^^ P)))
  | 0xd2 => P ^^^ (D &&& cNot S)
  | 0xd3 => cNot (S ^^^ (P &&& (D ||| S)))
  | 0xd4 => S ^^^ ((S ^^^ P) &&& (P ^^^ D))
  | 0xd5 => cNot (D &&& cNot (P &&& S))
  | 0xd6 => P ^^^ (S ^^^ (D ||| (P &&& S)))
  | 0xd7 => cNot (D &&& (P ^^^ S))
  | 0xd8 => P ^^^ (D &&& (S ^^^ P))
  | 0xd9 => cNot (S ^^^ (D ||| (P &&& S)))
  | 0xda => D ^^^ (P &&& cNot (S &&& D))
  | 0xdb => cNot ((S ^^^ P) &&& (D ^^^ S))
  | 0xdc => S ||| (P &&& cNot D)
  | 0xdd => S ||| cNot D
  | 0xde => S ||| (D ^^^ P)
  | 0xdf => S ||| cNot (D &&& P)
  | 0xe0 => P &&& (D ||| S)
  | 0xe1 => cNot (P ^^^ (D ||| S))
  | 0xe2 => D ^^^ (S &&& (P ^^^ D))
  | 0xe3 => cNot (P ^^^ (S ||| (D &&& P)))
  | 0xe4 => S ^^^ (D &&& (P ^^^ S))
  | 0xe5 => cNot (P ^^^ (D ||| (S &&& P)))
  | 0xe6 => S ^^^ (D &&& cNot (P &&& S))
  | 0xe7 => cNot ((S ^^^ P) &&& (P ^^^ D))
  | 0xe8 => S ^^^ ((S ^^^ P) &&& (D ^^^ S))
  | 0xe9 => cNot (D ^^^ (S ^^^ (P &&& cNot (D &&& S))))
  | 0xea => D ||| (P &&& S)
  | 0xeb => D ||| cNot (P ^^^ S)
  | 0xec => S ||| (D &&& P)
  | 0xed => S ||| cNot (D ^^^ P)
  | 0xee => D ||| S
  | 0xef => S ||| (D ||| cNot P)
  | 0xf0 => P
  | 0xf1 => P ||| cNot (D ||| S)
  | 0xf2 => P ||| (D &&& cNot S)
  | 0xf3 => P ||| cNot S
  | 0xf4 => P ||| (S &&& cNot D)
  | 0xf5 => P ||| cNot D
  | 0xf6 => P ||| (D ^^^ S)
  | 0xf7 => P ||| cNot (D &&& S)
  | 0xf8 => P ||| (D &&& S)
  | 0xf9 => P ||| cNot (D ^^^ S)
  | 0xfa => D ||| P
  | 0xfb => D ||| (P ||| cNot S)
  | 0xfc => P ||| S
  | 0xfd => P ||| (S ||| cNot D)
  | 0xfe => D ||| (P ||| S)
  | 0xff => cNot 0
  | _ => 0

/-- A value below a power of two is unchanged by the corresponding mask. -/
theorem and_mask_eq_self {x w : Nat} (h : x < 2 ^ w) : x &&& (2 ^ w - 1) = x := by
  rw [Nat.and_pow_two_sub_one_eq_mod]
  exact Nat.mod_eq_of_lt h

theorem rop_codes_core {w D S P : Nat} (hD : D < 2 ^ w) (hS : S < 2 ^ w) (hP : P < 2 ^ w)
    (hff : 0xffffffff &&& (2 ^ w - 1) = 2 ^ w - 1) :
    ROPMIX 0x00 D P S &&& (2 ^ w - 1) = 0 ∧
    ROPMIX 0xff D P S &&& (2 ^ w - 1) = 2 ^ w - 1 ∧
    ROPMIX 0xaa D P S &&& (2 ^ w - 1) = D ∧
    ROPMIX 0xcc D P S &&& (2 ^ w - 1) = S ∧
    ROPMIX 0xf0 D P S &&& (2 ^ w - 1) = P ∧
    ROPMIX 0x66 D P S &&& (2 ^ w - 1) = D ^^^ S ∧
    ROPMIX 0x88 D P S &&& (2 ^ w - 1) = D &&& S ∧
    ROPMIX 0xee D P S &&& (2 ^ w - 1) = D ||| S ∧
    ROPMIX 0x5a D P S &&& (2 ^ w - 1) = D ^^^ P := by
  refine ⟨?_, ?_, ?_, ?_, ?_, ?_, ?_, ?_, ?_⟩
  · show (0 : Nat) &&& (2 ^ w - 1) = 0
    exact Nat.zero_and _
  · show cNot 0 &&& (2 ^ w - 1) = 2 ^ w - 1
    have h0 : cNot 0 = 0xffffffff := rfl
    rw [h0, hff]
  · show D &&& (2 ^ w - 1) = D
    exact and_mask_eq_self hD
  · show S &&& (2 ^ w - 1) = S
    exact and_mask_eq_self hS
  · show P &&& (2 ^ w - 1) = P
    exact and_mask_eq_self hP
  · show (D ^^^ S) &&& (2 ^ w - 1) = D ^^^ S
    exact and_mask_eq_self (Nat.xor_lt_two_pow hD hS)
  · show (D &&& S) &&& (2 ^ w - 1) = D &&& S
    exact and_mask_eq_self (Nat.and_lt_two_pow _ hS)
  · show (D ||| S) &&& (2 ^ w - 1) = D ||| S
    exact and_mask_eq_self (Nat.or_lt_two_pow hD hS)
  · show (D ^^^ P) &&& (2 ^ w - 1) = D ^^^ P
    exact and_mask_eq_self (Nat.xor_lt_two_pow hD hP)

/-- C1: for every active pixel-width class (`accel.bpp` 0, 1 or 3, i.e.
8/16/32-bit) and all in-range operands D (destination), S (source),
P (pattern), the raster-operation unit output, truncated at the width of the
store exactly as the `WRITE` macro does, equals: 0 for code 0x00, all-ones for
0xFF, D for 0xAA, S for 0xCC, P for 0xF0, D xor S for 0x66, D and S for 0x88,
D or S for 0xEE, and D xor P for 0x5A. -/
theorem rop_truth_table (bpp D S P : Nat) (hbpp : bpp = 0 ∨ bpp = 1 ∨ bpp = 3)
    (hD : D ≤ accel_width_mask bpp) (hS : S ≤ accel_width_mask bpp)
    (hP : P ≤ accel_width_mask bpp) :
    ROPMIX 0x00 D P S &&& accel_width_mask bpp = 0 ∧
    ROPMIX 0xff D P S &&& accel_width_mask bpp = accel_width_mask bpp ∧
    ROPMIX 0xaa D P S &&& accel_width_mask bpp = D ∧
    ROPMIX 0xcc D P S &&& accel_width_mask bpp = S ∧
    ROPMIX 0xf0 D P S &&& accel_width_mask bpp = P ∧
    ROPMIX 0x66 D P S &&& accel_width_mask bpp = D ^^^ S ∧
    ROPMIX 0x88 D P S &&& accel_width_mask bpp = D &&& S ∧
    ROPMIX 0xee D P S &&& accel_width_mask bpp = D ||| S ∧
    ROPMIX 0x5a D P S &&& accel_width_mask bpp = D ^^^ P := by
  rcases hbpp with h | h | h
  · have e : accel_width_mask bpp = 2 ^ 8 - 1 := by subst h; norm_num [accel_width_mask]
    rw [e] at hD hS hP ⊢
    exact rop_codes_core (by omega) (by omega) (by omega) (by decide)
  · have e : accel_width_mask bpp = 2 ^ 16 - 1 := by subst h; norm_num [accel_width_mask]
    rw [e] at hD hS hP ⊢
    exact rop_codes_core (by omega) (by omega) (by omega) (by decide)
  · have e : accel_width_mask bpp = 2 ^ 32 - 1 := by subst h; norm_num [accel_width_mask]
    rw [e] at hD hS hP ⊢
    exact rop_codes_core (by omega) (by omega) (by omega) (by decide)

/-- Witness for C1 at the 8-bit class with D=0x12, S=0x34, P=0x56. -/
theorem rop_truth_table_witness :
    ROPMIX 0x00 0x12 0x56 0x34 &&& accel_width_mask 0 = 0 ∧
    ROPMIX 0xff 0x12 0x56 0x34 &&& accel_width_mask 0 = accel_width_mask 0 ∧
    ROPMIX 0xaa 0x12 0x56 0x34 &&& accel_width_mask 0 = 0x12 ∧
    ROPMIX 0xcc 0x12 0x56 0x34 &&& accel_width_mask 0 = 0x34 ∧
    ROPMIX 0xf0 0x12 0x56 0x34 &&& accel_width_mask 0 = 0x56 ∧
    ROPMIX 0x66 0x12 0x56 0x34 &&& accel_width_mask 0 = 0x12 ^^^ 0x34 ∧
    ROPMIX 0x88 0x12 0x56 0x34 &&& accel_width_mask 0 = 0x12 &&& 0x34 ∧
    ROPMIX 0xee 0x12 0x56 0x34 &&& accel_width_mask 0 = 0x12 ||| 0x34 ∧
    ROPMIX 0x5a 0x12 0x56 0x34 &&& accel_width_mask 0 = 0x12 ^^^ 0x56 :=
  rop_truth_table 0 0x12 0x34 0x56 (Or.inl rfl) (by decide) (by decide) (by decide)

/-- Remap address for chain-4/doubleword style layout, translated from
`dword_remap`. The complement `~0x3fffc` on a `uint32_t` is the literal
0xfffc0003. -/
def dword_remap (in_addr : Nat) : Nat :=
  ((in_addr <<< 2) &&& 0x3fff0) ||| ((in_addr >>> 14) &&& 0xc) ||| (in_addr &&& 0xfffc0003)

/-- C4: for every 32-bit framebuffer address, the dword-remap transform keeps
the low 2 bits and all bits above 17 unchanged, moves bits 2..15 of the input
up by 2 (into bits 4..17), and folds the top of the 14..17 group (bits 16..17,
shifted down by 14) back into bits 2..3 of the result. -/
theorem dword_remap_bits (a i : Nat) (ha : a < 2 ^ 32) :
    (dword_remap a).testBit i =
      if i < 2 then a.testBit i
      else if i < 4 then a.testBit (i + 14)
      else if i < 18 then a.testBit (i - 2)
      else a.testBit i := by
  by_cases hi : i < 32
  · interval_cases i <;>
      · simp only [dword_remap, Nat.testBit_lor, Nat.testBit_land, Nat.testBit_shiftLeft,
          Nat.testBit_shiftRight]
        norm_num [Nat.testBit_to_div_mod]
  · have hpow : (2 : Nat) ^ 32 ≤ 2 ^ i := Nat.pow_le_pow_right (by norm_num) (by omega)
    have hb : dword_remap a < 2 ^ 32 := by
      unfold dword_remap
      exact Nat.or_lt_two_pow
        (Nat.or_lt_two_pow (Nat.and_lt_two_pow _ (by norm_num)) (Nat.and_lt_two_pow _ (by norm_num)))
        (Nat.and_lt_two_pow _ (by norm_num))
    rw [if_neg (by omega), if_neg (by omega), if_neg (by omega),
      Nat.testBit_lt_two_pow (lt_of_lt_of_le hb hpow),
      Nat.testBit_lt_two_pow (lt_of_lt_of_le ha hpow)]

/-- Witness for C4 at address 0x12345 and bit 2 (folded from bit 16). -/
theorem dword_remap_bits_witness :
    (dword_remap 0x12345).testBit 2 =
      if 2 < 2 then Nat.testBit 0x12345 2
      else if 2 < 4 then Nat.testBit 0x12345 (2 + 14)
      else if 2 < 18 then Nat.testBit 0x12345 (2 - 2)
      else Nat.testBit 0x12345 2 :=
  dword_remap_bits 0x12345 2 (by norm_num)


/-! ## Data model: the accelerator register file and device state -/

/-- Chip generations, from the `TGUI_9400CXI .. TGUI_9680` enum. -/
def TGUI_9400CXI : Nat := 0

def TGUI_9440 : Nat := 1

def TGUI_9660 : Nat := 2

def TGUI_9680 : Nat := 3

/-- Command codes, from the `TGUI_BITBLT .. TGUI_FASTLINE` enum. -/
def TGUI_BITBLT : Nat := 1

def TGUI_SCANLINE : Nat := 3

def TGUI_BRESENHAMLINE : Nat := 4

def TGUI_SHORTVECTOR : Nat := 5

def TGUI_FASTLINE : Nat := 6

/-- Flag bits, from the `TGUI_SRCCPU .. TGUI_STENCIL` enum. -/
def TGUI_SRCCPU : Nat := 0

def TGUI_SRCPAT : Nat := 0x02

def TGUI_SRCDISP : Nat := 0x04

def TGUI_PATMONO : Nat := 0x20

def TGUI_SRCMONO : Nat := 0x40

def TGUI_TRANSENA : Nat := 0x1000

def TGUI_TRANSREV : Nat := 0x2000

def TGUI_SOLIDFILL : Nat := 0x4000

def TGUI_STENCIL : Nat := 0x8000

/-- The `accel` sub-struct of `tgui_t`. C `int16_t` fields are `Int` wrapped by
`i16` at every store, unsigned fields are `Nat`, the C `int` scratch fields
(`pat_x`, `pat_y`, pattern index) are `Int`/`Nat` as appropriate, and the
byte buffers and pattern caches are lists. -/
structure AccelState where
  src_x : Int := 0
  src_y : Int := 0
  src_x_clip : Int := 0
  src_y_clip : Int := 0
  dst_x : Int := 0
  dst_y : Int := 0
  dst_y_clip : Int := 0
  dst_x_clip : Int := 0
  size_x : Int := 0
  size_y : Int := 0
  sv_size_y : Nat := 0
  patloc : Nat := 0
  fg_col : Nat := 0
  bg_col : Nat := 0
  style : Nat := 0
  ckey : Nat := 0
  rop : Nat := 0
  flags : Nat := 0
  pattern : List Nat := List.replicate 0x80 0
  pattern_32bpp : List Nat := List.replicate 0x100 0
  command : Nat := 0
  ger22 : Nat := 0
  err : Int := 0
  top : Int := 0
  left : Int := 0
  bottom : Int := 0
  right : Int := 0
  x : Int := 0
  y : Int := 0
  cx : Int := 0
  cy : Int := 0
  dx : Int := 0
  dy : Int := 0
  src : Nat := 0
  dst : Nat := 0
  src_old : Nat := 0
  dst_old : Nat := 0
  pat_x : Int := 0
  pat_y : Int := 0
  use_src : Nat := 0
  pitch : Int := 0
  bpp : Nat := 0
  fill_pattern : List Nat := List.replicate 64 0
  mono_pattern : List Nat := List.replicate 64 0
  pattern_8 : List Nat := List.replicate 64 0
  pattern_16 : List Nat := List.replicate 64 0
  pattern_32 : List Nat := List.replicate 64 0
  pattern_32_idx : Nat := 0

/-- The parts of `tgui_t`/`svga_t` the accelerator command engine touches:
chip type, the register file, the byte-addressed framebuffer and its
power-of-two mask, the change-tracking map, the blitter-aperture latch and
the external display parameters the engine reads (`svga->rowoffset`,
`svga->bpp`, `svga->crtc[0x21]`, `svga->crtc[0x36]`). -/
structure TguiState where
  type : Nat := TGUI_9440
  accel : AccelState := {}
  vram : List Nat := []
  vram_mask : Nat := 0
  changedvram : Nat → Nat := fun _ => 0
  changeframecount : Nat := 0
  write_blitter : Bool := false
  rowoffset : Nat := 0
  svga_bpp : Nat := 8
  crtc21 : Nat := 0
  crtc36 : Nat := 0

/-- Truncation the C code applies to colour operands at bpp class 0 and 1
(`trans_col &= 0xff` / `&= 0xffff`, and likewise for `src_dat`/`pat_dat`). -/
def bpp_mask (bpp : Nat) (x : Nat) : Nat :=
  if bpp = 0 then x &&& 0xff else if bpp = 1 then x &&& 0xffff else x

/-- Byte fetch from the framebuffer list (out-of-range reads yield 0; the
masking below keeps every access in range). -/
def vramGetB (v : List Nat) (i : Nat) : Nat := v.getD i 0

/-- The `READ` macro: a masked 8/16/32-bit framebuffer element read at the
active pixel-width class. The address expression may be a signed C `int`;
it converts to `uint32_t` at use. The 16/32-bit views of the byte array are
little-endian, as on the emulator hosts. -/
def READ (t : TguiState) (addr : Int) : Nat :=
  if t.accel.bpp = 0 then vramGetB t.vram (u32 addr &&& t.vram_mask)
  else if t.accel.bpp = 1 then
    let i := u32 addr &&& (t.vram_mask >>> 1)
    vramGetB t.vram (2 * i) ||| (vramGetB t.vram (2 * i + 1) <<< 8)
  else
    let i := u32 addr &&& (t.vram_mask >>> 2)
    vramGetB t.vram (4 * i) ||| (vramGetB t.vram (4 * i + 1) <<< 8) |||
      (vramGetB t.vram (4 * i + 2) <<< 16) ||| (vramGetB t.vram (4 * i + 3) <<< 24)

/-- The byte addresses a `WRITE` at the given width class touches. -/
def write_byte_addrs (bpp mask : Nat) (addr : Int) : List Nat :=
  if bpp = 0 then [u32 addr &&& mask]
  else if bpp = 1 then
    let i := u32 addr &&& (mask >>> 1)
    [2 * i, 2 * i + 1]
  else
    let i := u32 addr &&& (mask >>> 2)
    [4 * i, 4 * i + 1, 4 * i + 2, 4 * i + 3]

/-- The `WRITE` macro: masked 8/16/32-bit framebuffer element store plus the
`changedvram` timestamp update at the same masked address. -/
def WRITE (t : TguiState) (addr : Int) (dat : Nat) : TguiState :=
  if t.accel.bpp = 0 then
    let i := u32 addr &&& t.vram_mask
    { t with vram := t.vram.set i (dat &&& 0xff),
             changedvram := fun j => if j = i >>> 12 then t.changeframecount else t.changedvram j }
  else if t.accel.bpp = 1 then
    let i := u32 addr &&& (t.vram_mask >>> 1)
    { t with vram := (t.vram.set (2 * i) (dat &&& 0xff)).set (2 * i + 1) ((dat >>> 8) &&& 0xff),
             changedvram := fun j => if j = i >>> 11 then t.changeframecount else t.changedvram j }
  else
    let i := u32 addr &&& (t.vram_mask >>> 2)
    { t with vram := (((t.vram.set (4 * i) (dat &&& 0xff)).set (4 * i + 1) ((dat >>> 8) &&& 0xff)).set
               (4 * i + 2) ((dat >>> 16) &&& 0xff)).set (4 * i + 3) ((dat >>> 24) &&& 0xff),
             changedvram := fun j => if j = i >>> 10 then t.changeframecount else t.changedvram j }

/-- Solid-fill pattern cache: the C loop stores `fg_col` at every index
`(y*8)+(7-x)`, i.e. every one of the 64 cells. -/
def fill_pattern_calc (fg : Nat) : List Nat := List.ofFn fun _ : Fin 64 => fg

/-- Monochrome pattern cache: cell `(y*8)+(7-x)` selects fg on bit `x` of
`pattern[y]`, so cell `j` tests bit `7 - j % 8` of byte `j / 8`. -/
def mono_pattern_calc (pat : List Nat) (fg bg : Nat) : List Nat :=
  List.ofFn fun j : Fin 64 =>
    if pat.getD ((j : Nat) / 8) 0 &&& (1 <<< (7 - (j : Nat) % 8)) ≠ 0 then fg else bg

/-- 8-bpp colour pattern cache: cell `(y*8)+x` is byte `x + y*8`. -/
def pattern_8_calc (pat : List Nat) : List Nat :=
  List.ofFn fun j : Fin 64 => pat.getD (j : Nat) 0

/-- 16-bpp colour pattern cache: cell `(y*8)+x` is the little-endian word at
`x*2 + y*16`. -/
def pattern_16_calc (pat : List Nat) : List Nat :=
  List.ofFn fun j : Fin 64 =>
    let x := (j : Nat) % 8
    let y := (j : Nat) / 8
    pat.getD (x * 2 + y * 16) 0 ||| (pat.getD (x * 2 + y * 16 + 1) 0 <<< 8)

/-- 32-bpp colour pattern cache, read from the auxiliary `pattern_32bpp`
buffer: cell `(y*8)+x` is the little-endian dword at `x*4 + y*32`. -/
def pattern_32_calc (pat32 : List Nat) : List Nat :=
  List.ofFn fun j : Fin 64 =>
    let x := (j : Nat) % 8
    let y := (j : Nat) / 8
    pat32.getD (x * 4 + y * 32) 0 ||| (pat32.getD (x * 4 + y * 32 + 1) 0 <<< 8) |||
      (pat32.getD (x * 4 + y * 32 + 2) 0 <<< 16) ||| (pat32.getD (x * 4 + y * 32 + 3) 0 <<< 24)

/-- Pattern-cell lookup `pattern_data[((pat_y & 7) * 8) + (pat_x & 7)]`; the
C `& 7` on a possibly negative `int` is the two's-complement low bits,
i.e. `emod 8`. -/
def pat_lookup (pd : List Nat) (pat_x pat_y : Int) : Nat :=
  pd.getD ((pat_y % 8).toNat * 8 + (pat_x % 8).toNat) 0

/-- The pattern cache `tgui_accel_command` selects for this invocation,
in the priority order of the C if-chain. -/
def pattern_data_sel (t : TguiState) : List Nat :=
  if t.accel.flags &&& TGUI_SOLIDFILL ≠ 0 then t.accel.fill_pattern
  else if t.accel.flags &&& TGUI_PATMONO ≠ 0 then t.accel.mono_pattern
  else if t.accel.bpp = 0 then t.accel.pattern_8
  else if t.accel.bpp = 1 then t.accel.pattern_16
  else t.accel.pattern_32

/-- The transparent colour: foreground or background selected by the
`TGUI_TRANSREV` flag, truncated at the active width class. -/
def trans_col_calc (t : TguiState) : Nat :=
  bpp_mask t.accel.bpp
    (if t.accel.flags &&& TGUI_TRANSREV ≠ 0 then t.accel.fg_col else t.accel.bg_col)

/-- The accelerator pitch derived from `svga->rowoffset` and `svga->bpp`
(`<<= 3` for 8/24 bpp, `<<= 2` for 15/16, `<<= 1` for 32). -/
def accel_pitch_calc (rowoffset svga_bpp : Nat) : Int :=
  if svga_bpp = 8 ∨ svga_bpp = 24 then ((rowoffset <<< 3 : Nat) : Int)
  else if svga_bpp = 15 ∨ svga_bpp = 16 then ((rowoffset <<< 2 : Nat) : Int)
  else if svga_bpp = 32 then ((rowoffset <<< 1 : Nat) : Int)
  else (rowoffset : Int)

/-- The width class derived from `svga->bpp` when `ger22` is written; the C
switch has no arm for other depths, keeping the old value. -/
def accel_bpp_calc (svga_bpp oldbpp : Nat) : Nat :=
  if svga_bpp = 8 ∨ svga_bpp = 24 then 0
  else if svga_bpp = 15 ∨ svga_bpp = 16 then 1
  else if svga_bpp = 32 then 3
  else oldbpp

/-- The per-pixel clip test of the BitBlt CPU-source paths: the TGUI 9440
short-circuits it (always draws), a 9660/9680 also requires `(dx, dy)` inside
`[left, right] x [top, bottom]`. -/
def bitblt_clip_ok (chip : Nat) (a : AccelState) : Bool :=
  decide (chip = TGUI_9440) ||
    (decide (TGUI_9660 ≤ chip) && decide (a.left ≤ a.dx) && decide (a.dx ≤ a.right) &&
      decide (a.top ≤ a.dy) && decide (a.dy ≤ a.bottom))

/-- The per-pixel clip test of the line primitives, which mask `dx`/`dy` to
12 bits before comparing. -/
def line_clip_ok (chip : Nat) (a : AccelState) : Bool :=
  decide (chip = TGUI_9440) ||
    (decide (TGUI_9660 ≤ chip) && decide (a.left ≤ a.dx % 4096) && decide (a.dx % 4096 ≤ a.right) &&
      decide (a.top ≤ a.dy % 4096) && decide (a.dy % 4096 ≤ a.bottom))

/-- The short-vector per-step direction switch on `(sv_size_y >> 8) & 0xe0`.
The C `dx++`/`dy--` on `int16_t` is followed by a 12-bit mask at the end of
each iteration, so plain `Int` arithmetic here is exact. -/
def shortvector_step (sv_size_y : Nat) (dx dy : Int) : Int × Int :=
  let oct := (sv_size_y >>> 8) &&& 0xe0
  if oct = 0x00 then (dx + 1, dy)
  else if oct = 0x20 then (dx + 1, dy - 1)
  else if oct = 0x40 then (dx, dy - 1)
  else if oct = 0x60 then (dx - 1, dy - 1)
  else if oct = 0x80 then (dx - 1, dy)
  else if oct = 0xa0 then (dx - 1, dy + 1)
  else if oct = 0xc0 then (dx, dy + 1)
  else if oct = 0xe0 then (dx + 1, dy + 1)
  else (dx, dy)

/-- The fast-line per-step direction switch on `(size_y >> 8) & 0xe0`, where
`size_y` is the signed size-y register (its two's-complement bits shifted). -/
def fastline_step (size_y : Int) (dx dy : Int) : Int × Int :=
  let oct := (u16 size_y >>> 8) &&& 0xe0
  if oct = 0x00 then (dx + 1, dy)
  else if oct = 0x20 then (dx + 1, dy - 1)
  else if oct = 0x40 then (dx, dy - 1)
  else if oct = 0x60 then (dx - 1, dy - 1)
  else if oct = 0x80 then (dx - 1, dy)
  else if oct = 0xa0 then (dx - 1, dy + 1)
  else if oct = 0xc0 then (dx, dy + 1)
  else if oct = 0xe0 then (dx + 1, dy + 1)
  else (dx, dy)

/-- The Bresenham minor-axis step switch on `(flags >> 8) & 7`. -/
def bresenham_minor_step (oc : Nat) (dx dy : Int) : Int × Int :=
  if oc = 0 ∨ oc = 2 then (dx, dy + 1)
  else if oc = 1 ∨ oc = 3 then (dx, dy - 1)
  else if oc = 4 ∨ oc = 5 then (dx + 1, dy)
  else if oc = 6 ∨ oc = 7 then (dx - 1, dy)
  else (dx, dy)

/-- The Bresenham major-axis step switch on `(flags >> 8) & 7`. -/
def bresenham_major_step (oc : Nat) (dx dy : Int) : Int × Int :=
  if oc = 0 ∨ oc = 1 then (dx + 1, dy)
  else if oc = 2 ∨ oc = 3 then (dx - 1, dy)
  else if oc = 4 ∨ oc = 6 then (dx, dy + 1)
  else if oc = 5 ∨ oc = 7 then (dx, dy - 1)
  else (dx, dy)


/-! ## The command state machine -/

/-- State mutations `tgui_accel_command` performs before dispatching on the
command code: reset of the run counters on a start invocation, reset of the
rolling 32-bpp pattern index, recomputation of the selected pattern cache
(the C if-chain is flattened here into one update whose guards are the
chain's mutually exclusive path conditions), and recomputation of the
pitch. -/
def tgui_accel_prologue (count : Int) (t : TguiState) : TguiState :=
  { t with accel := { t.accel with
      x := if count = -1 then 0 else t.accel.x,
      y := if count = -1 then 0 else t.accel.y,
      pattern_32_idx := 0,
      fill_pattern :=
        if t.accel.flags &&& TGUI_SOLIDFILL ≠ 0 then fill_pattern_calc t.accel.fg_col
        else t.accel.fill_pattern,
      mono_pattern :=
        if t.accel.flags &&& TGUI_SOLIDFILL = 0 ∧ t.accel.flags &&& TGUI_PATMONO ≠ 0 then
          mono_pattern_calc t.accel.pattern t.accel.fg_col t.accel.bg_col
        else t.accel.mono_pattern,
      pattern_8 :=
        if t.accel.flags &&& TGUI_SOLIDFILL = 0 ∧ t.accel.flags &&& TGUI_PATMONO = 0 ∧
            t.accel.bpp = 0 then pattern_8_calc t.accel.pattern
        else t.accel.pattern_8,
      pattern_16 :=
        if t.accel.flags &&& TGUI_SOLIDFILL = 0 ∧ t.accel.flags &&& TGUI_PATMONO = 0 ∧
            t.accel.bpp ≠ 0 ∧ t.accel.bpp = 1 then pattern_16_calc t.accel.pattern
        else t.accel.pattern_16,
      pattern_32 :=
        if t.accel.flags &&& TGUI_SOLIDFILL = 0 ∧ t.accel.flags &&& TGUI_PATMONO = 0 ∧
            t.accel.bpp ≠ 0 ∧ t.accel.bpp ≠ 1 then pattern_32_calc t.accel.pattern_32bpp
        else t.accel.pattern_32,
      pitch := accel_pitch_calc t.rowoffset t.svga_bpp } }

/-- The BitBlt start block (`count == -1`): seed the running pointers,
pattern cell, destination coordinates and clip bounds from the registers.
The C `>>= 1` / `>>= 2` on the nonnegative 12-bit clip bounds is division. -/
def bitblt_init (t : TguiState) : TguiState :=
  let a := t.accel
  let src0 := u32 (a.src_x + a.src_y * a.pitch)
  let dst0 := u32 (a.dst_x + a.dst_y * a.pitch)
  let left := a.src_x_clip % 4096
  let right := a.dst_x_clip % 4096
  { t with accel := { a with
      src_old := src0, src := src0, dst_old := dst0, dst := dst0,
      pat_x := a.dst_x, pat_y := a.dst_y,
      dx := a.dst_x % 4096, dy := a.dst_y % 4096,
      left := if a.bpp = 1 then left.fdiv 2 else if a.bpp = 3 then left.fdiv 4 else left,
      right := if a.bpp = 1 then right.fdiv 2 else if a.bpp = 3 then right.fdiv 4 else right,
      top := a.src_y_clip % 4096, bottom := a.dst_y_clip % 4096 } }

/-- The start block shared in shape by the three line primitives: seed
`(dx, dy)` from the destination registers, the step count `y`, and the clip
bounds (with the same width-class scaling as BitBlt). -/
def line_init (yval : Int) (t : TguiState) : TguiState :=
  let a := t.accel
  let left := a.src_x_clip % 4096
  let right := a.dst_x_clip % 4096
  { t with accel := { a with
      dx := a.dst_x % 4096, dy := a.dst_y % 4096, y := yval,
      left := if a.bpp = 1 then left.fdiv 2 else if a.bpp = 3 then left.fdiv 4 else left,
      right := if a.bpp = 1 then right.fdiv 2 else if a.bpp = 3 then right.fdiv 4 else right,
      top := a.src_y_clip % 4096, bottom := a.dst_y_clip % 4096 } }

/-- The scanline start block: seed pointers and pattern cell only. -/
def scanline_init (t : TguiState) : TguiState :=
  let a := t.accel
  let src0 := u32 (a.src_x + a.src_y * a.pitch)
  let dst0 := u32 (a.dst_x + a.dst_y * a.pitch)
  { t with accel := { a with
      src_old := src0, src := src0, dst_old := dst0, dst := dst0,
      pat_x := a.dst_x, pat_y := a.dst_y } }

/-- CPU source-data consumption at the active width class inside the clip
guard of the plain `TGUI_SRCCPU` BitBlt loop: yields the extracted source
pixel, the shifted `cpu_dat`, and the inner `count` adjustment. -/
def cpu_consume (bpp : Nat) (cpu_dat : Nat) (cnt : Int) : Nat × Nat × Int :=
  if bpp = 0 then
    (cpu_dat >>> 24, (cpu_dat <<< 8) % 4294967296, cnt)
  else if bpp = 1 then
    ((cpu_dat >>> 24) ||| ((cpu_dat >>> 8) &&& 0xff00), (cpu_dat <<< 16) % 4294967296, cnt - 1)
  else
    ((cpu_dat >>> 24) ||| ((cpu_dat >>> 8) &&& 0xff00) ||| ((cpu_dat <<< 8) &&& 0xff0000),
      (cpu_dat <<< 16) % 4294967296, cnt - 3)

/-- The write-enable condition of the plain CPU-source BitBlt path
(monochrome-pattern transparency, or no mono pattern, or mono pattern
without transparency, or the `ger22` override bit). -/
def cpu_blit_write_cond (flags ger22 pat_dat trans_col : Nat) : Prop :=
  (flags &&& (TGUI_PATMONO ||| TGUI_TRANSENA) = (TGUI_TRANSENA ||| TGUI_PATMONO)
      ∧ pat_dat ≠ trans_col)
    ∨ flags &&& TGUI_PATMONO = 0
    ∨ flags &&& (TGUI_PATMONO ||| TGUI_TRANSENA) = TGUI_PATMONO
    ∨ ger22 &&& 0x200 ≠ 0

instance (flags ger22 pat_dat trans_col : Nat) :
    Decidable (cpu_blit_write_cond flags ger22 pat_dat trans_col) := by
  unfold cpu_blit_write_cond; infer_instance

/-- The destination read, pattern lookup and conditional ROP write shared by
the two CPU-source BitBlt loops; `cond` is the path's write-enable test. -/
def blit_draw (cond : Bool) (pd : List Nat) (src_dat : Nat) (t : TguiState) : TguiState :=
  let dst_dat := READ t (t.accel.dst : Int)
  let pat_dat := bpp_mask t.accel.bpp (pat_lookup pd t.accel.pat_x t.accel.pat_y)
  if cond then WRITE t (t.accel.dst : Int) (ROPMIX t.accel.rop dst_dat pat_dat src_dat)
  else t

/-- BitBlt per-pixel pointer stepping (after the clip-guarded draw): the
source/destination pointers, the pattern column, the clipped column on the
newer chips, and the column counter. -/
def blit_advance (xdir : Int) (t : TguiState) : TguiState :=
  { t with accel := { t.accel with
      src := u32 ((t.accel.src : Int) + xdir),
      dst := u32 ((t.accel.dst : Int) + xdir),
      pat_x := t.accel.pat_x + xdir,
      dx := if TGUI_9660 ≤ t.type then i16 (t.accel.dx + xdir) else t.accel.dx,
      x := i16 (t.accel.x + 1) } }

/-- The CPU-source BitBlt row-wrap block: column state resets, the clipped
coordinates step on the newer chips, the row pointers advance by `pitch`,
and the row counter increments. -/
def blit_row_wrap (ydir : Int) (t : TguiState) : TguiState :=
  let so := u32 ((t.accel.src_old : Int) + ydir * t.accel.pitch)
  let dso := u32 ((t.accel.dst_old : Int) + ydir * t.accel.pitch)
  { t with accel := { t.accel with
      x := 0, pat_x := t.accel.dst_x, pat_y := t.accel.pat_y + ydir,
      dx := if TGUI_9660 ≤ t.type then t.accel.dst_x % 4096 else t.accel.dx,
      dy := if TGUI_9660 ≤ t.type then i16 (t.accel.dy + ydir) else t.accel.dy,
      src_old := so, dst_old := dso, src := so, dst := dso,
      y := i16 (t.accel.y + 1) } }

/-- The completion action at the end of a CPU-source BitBlt: the blitter
aperture latch clears when `crtc[0x21]` bit 5 is set. -/
def blit_done (t : TguiState) : TguiState :=
  if t.crtc21 &&& 0x20 ≠ 0 then { t with write_blitter := false } else t

/-- The start action of a CPU-source BitBlt: the blitter aperture latch sets
when `crtc[0x21]` bit 5 is set. -/
def blit_begin (t : TguiState) : TguiState :=
  if t.crtc21 &&& 0x20 ≠ 0 then { t with write_blitter := true } else t

/-- One BitBlt `while (count)` loop for the plain CPU-data source
(`TGUI_SRCCPU`), fuel-indexed; each iteration mirrors the C body in order:
clip-guarded consume/draw, pointer stepping, the row-wrap block with its
early returns, and the trailing `count--`. -/
def bitblt_cpu_loop (fuel : Nat) (cnt : Int) (cpu_dat : Nat) (xdir ydir : Int)
    (trans_col : Nat) (pd : List Nat) (t : TguiState) : TguiState :=
  match fuel with
  | 0 => t
  | fuel + 1 =>
    if cnt = 0 then t
    else
      let step :=
        if bitblt_clip_ok t.type t.accel then
          let sc := cpu_consume t.accel.bpp cpu_dat cnt
          let pat_dat := bpp_mask t.accel.bpp (pat_lookup pd t.accel.pat_x t.accel.pat_y)
          (sc.2.1, sc.2.2,
            blit_draw (decide (cpu_blit_write_cond t.accel.flags t.accel.ger22 pat_dat trans_col))
              pd sc.1 t)
        else (cpu_dat, cnt, t)
      let t := blit_advance xdir step.2.2
      if t.accel.size_x < t.accel.x then
        let t := blit_row_wrap ydir t
        if t.accel.size_y < t.accel.y then blit_done t
        else if t.accel.use_src ≠ 0 then t
        else bitblt_cpu_loop fuel (step.2.1 - 1) step.1 xdir ydir trans_col pd t
      else bitblt_cpu_loop fuel (step.2.1 - 1) step.1 xdir ydir trans_col pd t

/-- One BitBlt `while (count--)` loop for the mono-expanded CPU source
(`TGUI_SRCMONO | TGUI_SRCCPU`): each bit of `cpu_dat` (MSB first) selects
foreground or background, transparency may suppress the write, and the shift
of `cpu_dat` happens outside the clip guard. -/
def bitblt_mono_loop (fuel : Nat) (cnt : Int) (cpu_dat : Nat) (xdir ydir : Int)
    (trans_col : Nat) (pd : List Nat) (t : TguiState) : TguiState :=
  match fuel with
  | 0 => t
  | fuel + 1 =>
    if cnt = 0 then t
    else
      let t :=
        if bitblt_clip_ok t.type t.accel then
          let src_dat := bpp_mask t.accel.bpp
            (if cpu_dat >>> 31 ≠ 0 then t.accel.fg_col else t.accel.bg_col)
          blit_draw (decide (t.accel.flags &&& TGUI_TRANSENA = 0 ∨ src_dat ≠ trans_col))
            pd src_dat t
        else t
      let t := blit_advance xdir t
      if t.accel.size_x < t.accel.x then
        let t := blit_row_wrap ydir t
        if t.accel.size_y < t.accel.y then blit_done t
        else if t.accel.use_src ≠ 0 then t
        else bitblt_mono_loop fuel (cnt - 1) ((cpu_dat <<< 1) % 4294967296) xdir ydir trans_col pd t
      else bitblt_mono_loop fuel (cnt - 1) ((cpu_dat <<< 1) % 4294967296) xdir ydir trans_col pd t

/-- Per-pixel body of the pattern/display-source BitBlt and of the scanline
transfer: unguarded source read through the running pointer, transparency
test against the source pixel, ROP write, pointer stepping. -/
def blit_general_pixel (xdir : Int) (trans_col : Nat) (pd : List Nat) (t : TguiState) :
    TguiState :=
  let src_dat := READ t (t.accel.src : Int)
  let dst_dat := READ t (t.accel.dst : Int)
  let pat_dat := bpp_mask t.accel.bpp (pat_lookup pd t.accel.pat_x t.accel.pat_y)
  let t :=
    if t.accel.flags &&& TGUI_TRANSENA = 0 ∨ src_dat ≠ trans_col then
      WRITE t (t.accel.dst : Int) (ROPMIX t.accel.rop dst_dat pat_dat src_dat)
    else t
  { t with accel := { t.accel with
      src := u32 ((t.accel.src : Int) + xdir),
      dst := u32 ((t.accel.dst : Int) + xdir),
      pat_x := t.accel.pat_x + xdir,
      x := i16 (t.accel.x + 1) } }

/-- The row-wrap block of the pattern/display-source BitBlt (no clipped
coordinates, no aperture latch interaction). -/
def blit_row_wrap_default (ydir : Int) (t : TguiState) : TguiState :=
  let so := u32 ((t.accel.src_old : Int) + ydir * t.accel.pitch)
  let dso := u32 ((t.accel.dst_old : Int) + ydir * t.accel.pitch)
  { t with accel := { t.accel with
      x := 0, y := i16 (t.accel.y + 1),
      pat_x := t.accel.dst_x, pat_y := t.accel.pat_y + ydir,
      src_old := so, dst_old := dso, src := so, dst := dso } }

/-- The default BitBlt `while (count--)` loop (pattern or display source). -/
def bitblt_default_loop (fuel : Nat) (cnt : Int) (xdir ydir : Int)
    (trans_col : Nat) (pd : List Nat) (t : TguiState) : TguiState :=
  match fuel with
  | 0 => t
  | fuel + 1 =>
    if cnt = 0 then t
    else
      let t := blit_general_pixel xdir trans_col pd t
      if t.accel.size_x < t.accel.x then
        let t := blit_row_wrap_default ydir t
        if t.accel.size_y < t.accel.y then t
        else bitblt_default_loop fuel (cnt - 1) xdir ydir trans_col pd t
      else bitblt_default_loop fuel (cnt - 1) xdir ydir trans_col pd t

/-- The scanline row-wrap block: column state reset, row pointers advanced
by `pitch`, pattern row stepped; the loop returns right after it. -/
def scanline_row_wrap (ydir : Int) (t : TguiState) : TguiState :=
  let so := u32 ((t.accel.src_old : Int) + ydir * t.accel.pitch)
  let dso := u32 ((t.accel.dst_old : Int) + ydir * t.accel.pitch)
  { t with accel := { t.accel with
      x := 0, pat_x := t.accel.dst_x, pat_y := t.accel.pat_y + ydir,
      src_old := so, dst_old := dso, src := so, dst := dso } }

/-- The scanline `while (count--)` loop: the per-pixel logic of the default
BitBlt path, but it returns as soon as one row wraps. -/
def scanline_loop (fuel : Nat) (cnt : Int) (xdir ydir : Int)
    (trans_col : Nat) (pd : List Nat) (t : TguiState) : TguiState :=
  match fuel with
  | 0 => t
  | fuel + 1 =>
    if cnt = 0 then t
    else
      let t := blit_general_pixel xdir trans_col pd t
      if t.accel.size_x < t.accel.x then scanline_row_wrap ydir t
      else scanline_loop fuel (cnt - 1) xdir ydir trans_col pd t

/-- The clip-guarded line pixel: foreground colour through the ROP at
`dx + dy * pitch` (the source operand of the ROP stays 0). -/
def line_draw (t : TguiState) : TguiState :=
  if line_clip_ok t.type t.accel then
    let dst_dat := READ t (t.accel.dx + t.accel.dy * t.accel.pitch)
    WRITE t (t.accel.dx + t.accel.dy * t.accel.pitch)
      (ROPMIX t.accel.rop dst_dat t.accel.fg_col 0)
  else t

/-- End-of-iteration line bookkeeping: step counter down, 12-bit masks. -/
def line_mask_step (t : TguiState) : TguiState :=
  { t with accel := { t.accel with
      y := i16 (t.accel.y - 1), dx := t.accel.dx % 4096, dy := t.accel.dy % 4096 } }

/-- The Bresenham end-of-iteration stepping: error-term update with
minor-axis step when the term is nonnegative, then the major-axis step. -/
def bres_step_update (t : TguiState) : TguiState :=
  let oc := (t.accel.flags >>> 8) &&& 7
  let t :=
    if 0 ≤ t.accel.size_x then
      let t := { t with accel := { t.accel with
        size_x := i16 (t.accel.size_x + t.accel.src_x) } }
      let p := bresenham_minor_step oc t.accel.dx t.accel.dy
      { t with accel := { t.accel with dx := p.1, dy := p.2 } }
    else
      { t with accel := { t.accel with
        size_x := i16 (t.accel.size_x + t.accel.src_y) } }
  let p := bresenham_major_step oc t.accel.dx t.accel.dy
  { t with accel := { t.accel with dx := p.1, dy := p.2 } }

/-- The Bresenham line `while (count--)` loop: clip-guarded draw, early break
when the step count hits zero, error-term and axis stepping, 12-bit masks. -/
def bresenham_loop (fuel : Nat) (cnt : Int) (t : TguiState) : TguiState :=
  match fuel with
  | 0 => t
  | fuel + 1 =>
    if cnt = 0 then t
    else
      let t := line_draw t
      if t.accel.y = 0 then t
      else bresenham_loop fuel (cnt - 1) (line_mask_step (bres_step_update t))

/-- The short-vector end-of-iteration stepping by its octant code. -/
def sv_step_update (t : TguiState) : TguiState :=
  let p := shortvector_step t.accel.sv_size_y t.accel.dx t.accel.dy
  { t with accel := { t.accel with dx := p.1, dy := p.2 } }

/-- The fast-line end-of-iteration stepping by its octant code. -/
def fl_step_update (t : TguiState) : TguiState :=
  let p := fastline_step t.accel.size_y t.accel.dx t.accel.dy
  { t with accel := { t.accel with dx := p.1, dy := p.2 } }

/-- The short-vector `while (count--)` loop: same draw logic as Bresenham,
per-step octant from the upper bits of `sv_size_y`. -/
def shortvector_loop (fuel : Nat) (cnt : Int) (t : TguiState) : TguiState :=
  match fuel with
  | 0 => t
  | fuel + 1 =>
    if cnt = 0 then t
    else
      let t := line_draw t
      if t.accel.y = 0 then t
      else shortvector_loop fuel (cnt - 1) (line_mask_step (sv_step_update t))

/-- The fast-line `while (count--)` loop: same draw logic as short vector,
per-step octant from the upper bits of the `size_y` register. -/
def fastline_loop (fuel : Nat) (cnt : Int) (t : TguiState) : TguiState :=
  match fuel with
  | 0 => t
  | fuel + 1 =>
    if cnt = 0 then t
    else
      let t := line_draw t
      if t.accel.y = 0 then t
      else fastline_loop fuel (cnt - 1) (line_mask_step (fl_step_update t))

/-- Fuel bound for the fueled loops. A BitBlt processes at most
`(size_x+2) * (size_y+2)` pixels before the completion return fires and a
line primitive at most `size_y + 2` steps, both far below `2^26`; a positive
`count` adds at most itself. The bound is never reached in any run the
theorems below consider. -/
def cmd_fuel (count : Int) : Nat := count.toNat + 0x4000000

/-- The accelerator command engine `tgui_accel_command`. A `count` of `-1`
is the start sentinel; otherwise `count` is the number of supplied data
units (bits) and `cpu_dat` the CPU-supplied data, MSB-first. -/
def tgui_accel_command (count : Int) (cpu_dat : Nat) (t : TguiState) : TguiState :=
  let xdir : Int := if t.accel.flags &&& 0x200 ≠ 0 then -1 else 1
  let ydir : Int := if t.accel.flags &&& 0x100 ≠ 0 then -1 else 1
  let trans_col := trans_col_calc t
  let skewed := count ≠ -1 ∧ t.accel.x = 0 ∧ t.accel.flags &&& TGUI_SRCMONO ≠ 0
  let cpu_dat :=
    if skewed then (cpu_dat <<< ((t.accel.flags >>> 24) &&& 7)) % 4294967296 else cpu_dat
  let count :=
    if skewed then count - (((t.accel.flags >>> 24) &&& 7 : Nat) : Int) else count
  let t := tgui_accel_prologue count t
  let pd := pattern_data_sel t
  if t.accel.command = TGUI_BITBLT then
    let t := if count = -1 then bitblt_init t else t
    if t.accel.flags &&& (TGUI_SRCMONO ||| TGUI_SRCDISP) = TGUI_SRCCPU then
      if count = -1 then
        let t := blit_begin t
        if t.accel.use_src ≠ 0 then t
        else bitblt_cpu_loop (cmd_fuel count) count cpu_dat xdir ydir trans_col pd t
      else
        bitblt_cpu_loop (cmd_fuel count) (count.fdiv 8) cpu_dat xdir ydir trans_col pd t
    else if t.accel.flags &&& (TGUI_SRCMONO ||| TGUI_SRCDISP) = (TGUI_SRCMONO ||| TGUI_SRCCPU) then
      if count = -1 then
        let t := blit_begin t
        if t.accel.use_src ≠ 0 then t
        else bitblt_mono_loop (cmd_fuel count) count cpu_dat xdir ydir trans_col pd t
      else bitblt_mono_loop (cmd_fuel count) count cpu_dat xdir ydir trans_col pd t
    else bitblt_default_loop (cmd_fuel count) count xdir ydir trans_col pd t
  else if t.accel.command = TGUI_SCANLINE then
    let t := if count = -1 then scanline_init t else t
    scanline_loop (cmd_fuel count) count xdir ydir trans_col pd t
  else if t.accel.command = TGUI_BRESENHAMLINE then
    let t := if count = -1 then line_init t.accel.size_y t else t
    bresenham_loop (cmd_fuel count) count t
  else if t.accel.command = TGUI_SHORTVECTOR then
    let t := if count = -1 then line_init (((t.accel.sv_size_y &&& 0xfff : Nat)) : Int) t else t
    shortvector_loop (cmd_fuel count) count t
  else if t.accel.command = TGUI_FASTLINE then
    if t.type < TGUI_9660 then t
    else
      let t := if count = -1 then line_init t.accel.size_y t else t
      fastline_loop (cmd_fuel count) count t
  else t


/-! ## Register file and dispatcher -/

/-- Low-byte update of a 16-bit register held in a signed `int16_t` field:
the C `(reg & 0xff00) | val` acts on the two's-complement bits. -/
def reg16_lo (old : Int) (v : Nat) : Int := i16 (((u16 old &&& 0xff00) ||| v : Nat) : Int)

/-- High-byte update of a 16-bit register held in a signed `int16_t` field. -/
def reg16_hi (old : Int) (v : Nat) : Int := i16 (((u16 old &&& 0xff) ||| (v <<< 8) : Nat) : Int)

/-- Low byte of a signed 16-bit register as read back through a `uint8_t`. -/
def reg_lo8 (x : Int) : Nat := u16 x &&& 0xff

/-- High byte of a signed 16-bit register as read back through a `uint8_t`. -/
def reg_hi8 (x : Int) : Nat := (u16 x >>> 8) &&& 0xff

/-- The byte-wide accelerator register write dispatcher `tgui_accel_out`.
A write to 0x2124 (command) triggers a command start; pattern-buffer writes
at 0x2180..0x21ff also advance the rolling 32-bpp pattern index. Unmatched
addresses are ignored. -/
def tgui_accel_out (addr : Nat) (val : Nat) (t : TguiState) : TguiState :=
  let addr := addr &&& 0xffff
  let v := val &&& 0xff
  let a := t.accel
  if 0x2180 ≤ addr ∧ addr ≤ 0x21ff then
    { t with accel := { a with
        pattern := a.pattern.set (addr &&& 0x7f) v,
        pattern_32bpp := a.pattern_32bpp.set a.pattern_32_idx v,
        pattern_32_idx := (a.pattern_32_idx + 1) &&& 0xff } }
  else if addr = 0x2122 then
    { t with accel := { a with
        ger22 := (a.ger22 &&& 0xff00) ||| v,
        bpp := accel_bpp_calc t.svga_bpp a.bpp } }
  else if addr = 0x2123 then
    { t with accel := { a with
        ger22 := (a.ger22 &&& 0xff) ||| (v <<< 8),
        bpp := accel_bpp_calc t.svga_bpp a.bpp } }
  else if addr = 0x2124 then
    tgui_accel_command (-1) 0 { t with accel := { a with command := v } }
  else if addr = 0x2127 then
    { t with accel := { a with rop := v, use_src := (v &&& 0x33) ^^^ ((v >>> 2) &&& 0x33) } }
  else if addr = 0x2128 then
    { t with accel := { a with flags := (a.flags &&& 0xffffff00) ||| v } }
  else if addr = 0x2129 then
    { t with accel := { a with flags := (a.flags &&& 0xffff00ff) ||| (v <<< 8) } }
  else if addr = 0x212a then
    { t with accel := { a with flags := (a.flags &&& 0xff00ffff) ||| (v <<< 16) } }
  else if addr = 0x212b then
    { t with accel := { a with flags := (a.flags &&& 0x0000ffff) ||| (v <<< 24) } }
  else if addr = 0x212c ∨ addr = 0x2178 then
    { t with accel := { a with fg_col := (a.fg_col &&& 0xffffff00) ||| v } }
  else if addr = 0x212d ∨ addr = 0x2179 then
    { t with accel := { a with fg_col := (a.fg_col &&& 0xffff00ff) ||| (v <<< 8) } }
  else if addr = 0x212e ∨ addr = 0x217a then
    { t with accel := { a with fg_col := (a.fg_col &&& 0xff00ffff) ||| (v <<< 16) } }
  else if addr = 0x212f ∨ addr = 0x217b then
    { t with accel := { a with fg_col := (a.fg_col &&& 0x00ffffff) ||| (v <<< 24) } }
  else if addr = 0x2130 ∨ addr = 0x217c then
    { t with accel := { a with bg_col := (a.bg_col &&& 0xffffff00) ||| v } }
  else if addr = 0x2131 ∨ addr = 0x217d then
    { t with accel := { a with bg_col := (a.bg_col &&& 0xffff00ff) ||| (v <<< 8) } }
  else if addr = 0x2132 ∨ addr = 0x217e then
    { t with accel := { a with bg_col := (a.bg_col &&& 0xff00ffff) ||| (v <<< 16) } }
  else if addr = 0x2133 ∨ addr = 0x217f then
    { t with accel := { a with bg_col := (a.bg_col &&& 0x00ffffff) ||| (v <<< 24) } }
  else if addr = 0x2134 then
    { t with accel := { a with patloc := (a.patloc &&& 0xff00) ||| v } }
  else if addr = 0x2135 then
    { t with accel := { a with patloc := (a.patloc &&& 0xff) ||| (v <<< 8) } }
  else if addr = 0x2138 then { t with accel := { a with dst_x := reg16_lo a.dst_x v } }
  else if addr = 0x2139 then { t with accel := { a with dst_x := reg16_hi a.dst_x v } }
  else if addr = 0x213a then { t with accel := { a with dst_y := reg16_lo a.dst_y v } }
  else if addr = 0x213b then { t with accel := { a with dst_y := reg16_hi a.dst_y v } }
  else if addr = 0x213c then
    { t with accel := { a with src_x := i16 (((u16 a.src_x &&& 0x3f00) ||| v : Nat) : Int) } }
  else if addr = 0x213d then
    let sx := i16 (((u16 a.src_x &&& 0xff) ||| ((v &&& 0x3f) <<< 8) : Nat) : Int)
    { t with accel := { a with
        src_x := if v &&& 0x20 ≠ 0 then i16 ((u16 sx ||| 0xc000 : Nat) : Int) else sx } }
  else if addr = 0x213e then
    { t with accel := { a with src_y := i16 (((u16 a.src_y &&& 0x3f00) ||| v : Nat) : Int) } }
  else if addr = 0x213f then
    let sy := i16 (((u16 a.src_y &&& 0xff) ||| ((v &&& 0x3f) <<< 8) : Nat) : Int)
    { t with accel := { a with
        src_y := if v &&& 0x20 ≠ 0 then i16 ((u16 sy ||| 0xc000 : Nat) : Int) else sy } }
  else if addr = 0x2140 then
    { t with accel := { a with size_x := i16 (((u16 a.size_x &&& 0x3f00) ||| v : Nat) : Int) } }
  else if addr = 0x2141 then
    let sx := i16 (((u16 a.size_x &&& 0xff) ||| ((v &&& 0x3f) <<< 8) : Nat) : Int)
    { t with accel := { a with
        size_x := if v &&& 0x20 ≠ 0 then i16 ((u16 sx ||| 0xe000 : Nat) : Int) else sx } }
  else if addr = 0x2142 then
    { t with accel := { a with
        size_y := i16 (((u16 a.size_y &&& 0xf00) ||| v : Nat) : Int),
        sv_size_y := (a.sv_size_y &&& 0xff00) ||| v } }
  else if addr = 0x2143 then
    { t with accel := { a with
        size_y := i16 (((u16 a.size_y &&& 0xff) ||| ((v &&& 0x0f) <<< 8) : Nat) : Int),
        sv_size_y := (a.sv_size_y &&& 0xff) ||| (v <<< 8) } }
  else if addr = 0x2144 then
    { t with accel := { a with style := (a.style &&& 0xffffff00) ||| v } }
  else if addr = 0x2145 then
    { t with accel := { a with style := (a.style &&& 0xffff00ff) ||| (v <<< 8) } }
  else if addr = 0x2146 then
    { t with accel := { a with style := (a.style &&& 0xff00ffff) ||| (v <<< 16) } }
  else if addr = 0x2147 then
    { t with accel := { a with style := (a.style &&& 0x00ffffff) ||| (v <<< 24) } }
  else if addr = 0x2148 then { t with accel := { a with src_x_clip := reg16_lo a.src_x_clip v } }
  else if addr = 0x2149 then { t with accel := { a with src_x_clip := reg16_hi a.src_x_clip v } }
  else if addr = 0x214a then { t with accel := { a with src_y_clip := reg16_lo a.src_y_clip v } }
  else if addr = 0x214b then { t with accel := { a with src_y_clip := reg16_hi a.src_y_clip v } }
  else if addr = 0x214c then { t with accel := { a with dst_x_clip := reg16_lo a.dst_x_clip v } }
  else if addr = 0x214d then { t with accel := { a with dst_x_clip := reg16_hi a.dst_x_clip v } }
  else if addr = 0x214e then { t with accel := { a with dst_y_clip := reg16_lo a.dst_y_clip v } }
  else if addr = 0x214f then { t with accel := { a with dst_y_clip := reg16_hi a.dst_y_clip v } }
  else if addr = 0x2168 then
    { t with accel := { a with ckey := (a.ckey &&& 0xffffff00) ||| v } }
  else if addr = 0x2169 then
    { t with accel := { a with ckey := (a.ckey &&& 0xffff00ff) ||| (v <<< 8) } }
  else if addr = 0x216a then
    { t with accel := { a with ckey := (a.ckey &&& 0xff00ffff) ||| (v <<< 16) } }
  else if addr = 0x216b then
    { t with accel := { a with ckey := (a.ckey &&& 0x00ffffff) ||| (v <<< 24) } }
  else t

/-- 16-bit accelerator register write: two byte writes at ascending
addresses, little-endian. -/
def tgui_accel_out_w (addr : Nat) (val : Nat) (t : TguiState) : TguiState :=
  let val := val &&& 0xffff
  tgui_accel_out (addr + 1) (val >>> 8) (tgui_accel_out addr val t)

/-- 32-bit accelerator register write `tgui_accel_out_l`: address 0x2124 is
the atomic command+ROP path (command from the low byte, ROP from the top
byte, then command start); every other address decomposes into four byte
writes at ascending addresses. -/
def tgui_accel_out_l (addr : Nat) (val : Nat) (t : TguiState) : TguiState :=
  let val := val &&& 0xffffffff
  if addr = 0x2124 then
    let rop := val >>> 24
    tgui_accel_command (-1) 0
      { t with accel := { t.accel with
          command := val &&& 0xff, rop := rop,
          use_src := (rop &&& 0x33) ^^^ ((rop >>> 2) &&& 0x33) } }
  else
    tgui_accel_out (addr + 3) (val >>> 24) (tgui_accel_out (addr + 2) (val >>> 16)
      (tgui_accel_out (addr + 1) (val >>> 8) (tgui_accel_out addr val t)))

/-- The byte-wide accelerator register read `tgui_accel_in`. Reads of
multi-byte registers return the selected byte; unmatched addresses read 0. -/
def tgui_accel_in (addr : Nat) (t : TguiState) : Nat :=
  let addr := addr &&& 0xffff
  let a := t.accel
  if 0x2180 ≤ addr ∧ addr ≤ 0x21ff then a.pattern.getD (addr &&& 0x7f) 0
  else if addr = 0x2120 then 0
  else if addr = 0x2122 then a.ger22 &&& 0xff
  else if addr = 0x2123 then (a.ger22 >>> 8) &&& 0xff
  else if addr = 0x2127 then a.rop
  else if addr = 0x2128 then a.flags &&& 0xff
  else if addr = 0x2129 then (a.flags >>> 8) &&& 0xff
  else if addr = 0x212a then (a.flags >>> 16) &&& 0xff
  else if addr = 0x212b then (a.flags >>> 24) &&& 0xff
  else if addr = 0x212c ∨ addr = 0x2178 then a.fg_col &&& 0xff
  else if addr = 0x212d ∨ addr = 0x2179 then (a.fg_col >>> 8) &&& 0xff
  else if addr = 0x212e ∨ addr = 0x217a then (a.fg_col >>> 16) &&& 0xff
  else if addr = 0x212f ∨ addr = 0x217b then (a.fg_col >>> 24) &&& 0xff
  else if addr = 0x2130 ∨ addr = 0x217c then a.bg_col &&& 0xff
  else if addr = 0x2131 ∨ addr = 0x217d then (a.bg_col >>> 8) &&& 0xff
  else if addr = 0x2132 ∨ addr = 0x217e then (a.bg_col >>> 16) &&& 0xff
  else if addr = 0x2133 ∨ addr = 0x217f then (a.bg_col >>> 24) &&& 0xff
  else if addr = 0x2134 then a.patloc &&& 0xff
  else if addr = 0x2135 then (a.patloc >>> 8) &&& 0xff
  else if addr = 0x2138 then reg_lo8 a.dst_x
  else if addr = 0x2139 then reg_hi8 a.dst_x
  else if addr = 0x213a then reg_lo8 a.dst_y
  else if addr = 0x213b then reg_hi8 a.dst_y
  else if addr = 0x213c then reg_lo8 a.src_x
  else if addr = 0x213d then reg_hi8 a.src_x
  else if addr = 0x213e then reg_lo8 a.src_y
  else if addr = 0x213f then reg_hi8 a.src_y
  else if addr = 0x2140 then reg_lo8 a.size_x
  else if addr = 0x2141 then reg_hi8 a.size_x
  else if addr = 0x2142 then reg_lo8 a.size_y
  else if addr = 0x2143 then reg_hi8 a.size_y
  else if addr = 0x2144 then a.style &&& 0xff
  else if addr = 0x2145 then (a.style >>> 8) &&& 0xff
  else if addr = 0x2146 then (a.style >>> 16) &&& 0xff
  else if addr = 0x2147 then (a.style >>> 24) &&& 0xff
  else if addr = 0x2148 then reg_lo8 a.src_x_clip
  else if addr = 0x2149 then reg_hi8 a.src_x_clip
  else if addr = 0x214a then reg_lo8 a.src_y_clip
  else if addr = 0x214b then reg_hi8 a.src_y_clip
  else if addr = 0x214c then reg_lo8 a.dst_x_clip
  else if addr = 0x214d then reg_hi8 a.dst_x_clip
  else if addr = 0x214e then reg_lo8 a.dst_y_clip
  else if addr = 0x214f then reg_hi8 a.dst_y_clip
  else if addr = 0x2168 then a.ckey &&& 0xff
  else if addr = 0x2169 then (a.ckey >>> 8) &&& 0xff
  else if addr = 0x216a then (a.ckey >>> 16) &&& 0xff
  else if addr = 0x216b then (a.ckey >>> 24) &&& 0xff
  else 0

/-- The memory-mapped byte write `tgui_accel_write`: `crtc[0x36]` selects
which 256-byte window is decoded; in-window accesses rebase to the port
range. -/
def tgui_accel_write (addr : Nat) (val : Nat) (t : TguiState) : TguiState :=
  if t.crtc36 &&& 3 = 2 then
    if addr &&& 0xffffff00 ≠ 0xbff00 then t
    else tgui_accel_out ((addr &&& 0xff) + 0x2100) val t
  else if t.crtc36 &&& 3 = 1 then
    if addr &&& 0xffffff00 ≠ 0xb7f00 then t
    else tgui_accel_out ((addr &&& 0xff) + 0x2100) val t
  else tgui_accel_out ((addr &&& 0xff) + 0x2100) val t

/-- The memory-mapped word write: two byte writes at ascending addresses. -/
def tgui_accel_write_w (addr : Nat) (val : Nat) (t : TguiState) : TguiState :=
  let val := val &&& 0xffff
  tgui_accel_write (addr + 1) (val >>> 8) (tgui_accel_write addr val t)

/-- The memory-mapped dword write `tgui_accel_write_l`: offset 0x24 inside
the decoded window is the same atomic command+ROP path as the port write;
other offsets decompose into two word writes. -/
def tgui_accel_write_l (addr : Nat) (val : Nat) (t : TguiState) : TguiState :=
  let val := val &&& 0xffffffff
  if addr &&& 0xff = 0x24 then
    if t.crtc36 &&& 3 = 2 ∧ addr &&& 0xffffff00 ≠ 0xbff00 then t
    else if t.crtc36 &&& 3 = 1 ∧ addr &&& 0xffffff00 ≠ 0xb7f00 then t
    else
      let rop := val >>> 24
      tgui_accel_command (-1) 0
        { t with accel := { t.accel with
            command := val &&& 0xff, rop := rop,
            use_src := (rop &&& 0x33) ^^^ ((rop >>> 2) &&& 0x33) } }
  else
    tgui_accel_write_w (addr + 2) (val >>> 16) (tgui_accel_write_w addr val t)

/-- The blitter branch of `tgui_accel_write_fb_b`: a byte written through the
framebuffer aperture while `write_blitter` is set feeds 8 bits to the running
command, the byte at the top of `cpu_dat`. (The non-blitter branch is an
ordinary linear framebuffer write outside this subsystem.) -/
def blitter_feed_b (val : Nat) (t : TguiState) : TguiState :=
  tgui_accel_command 8 (((val &&& 0xff) <<< 24)) t

/-- The blitter branch of `tgui_accel_write_fb_w`: 16 bits, the two bytes
byte-swapped into the top of `cpu_dat` so the lower-addressed byte streams
first. -/
def blitter_feed_w (val : Nat) (t : TguiState) : TguiState :=
  let val := val &&& 0xffff
  tgui_accel_command 16 ((((val &&& 0xff00) >>> 8) ||| ((val &&& 0x00ff) <<< 8)) <<< 16) t

/-- The blitter branch of `tgui_accel_write_fb_l`: 32 bits, fully
byte-reversed so the lowest-addressed byte streams first. -/
def blitter_feed_l (val : Nat) (t : TguiState) : TguiState :=
  let val := val &&& 0xffffffff
  tgui_accel_command 32
    (((val &&& 0xff000000) >>> 24) ||| ((val &&& 0x00ff0000) >>> 8) |||
      ((val &&& 0x0000ff00) <<< 8) ||| ((val &&& 0x000000ff) <<< 24)) t



/-! Projection lemmas: the command prologue leaves the chip/display state
and every programmable register unchanged. -/

@[simp] theorem prologue_type (n : Int) (t : TguiState) :
    (tgui_accel_prologue n t).type = t.type := by
  rfl

@[simp] theorem prologue_vram (n : Int) (t : TguiState) :
    (tgui_accel_prologue n t).vram = t.vram := by
  rfl

@[simp] theorem prologue_vram_mask (n : Int) (t : TguiState) :
    (tgui_accel_prologue n t).vram_mask = t.vram_mask := by
  rfl

@[simp] theorem prologue_changedvram (n : Int) (t : TguiState) :
    (tgui_accel_prologue n t).changedvram = t.changedvram := by
  rfl

@[simp] theorem prologue_changeframecount (n : Int) (t : TguiState) :
    (tgui_accel_prologue n t).changeframecount = t.changeframecount := by
  rfl

@[simp] theorem prologue_write_blitter (n : Int) (t : TguiState) :
    (tgui_accel_prologue n t).write_blitter = t.write_blitter := by
  rfl

@[simp] theorem prologue_rowoffset (n : Int) (t : TguiState) :
    (tgui_accel_prologue n t).rowoffset = t.rowoffset := by
  rfl

@[simp] theorem prologue_svga_bpp (n : Int) (t : TguiState) :
    (tgui_accel_prologue n t).svga_bpp = t.svga_bpp := by
  rfl

@[simp] theorem prologue_crtc21 (n : Int) (t : TguiState) :
    (tgui_accel_prologue n t).crtc21 = t.crtc21 := by
  rfl

@[simp] theorem prologue_crtc36 (n : Int) (t : TguiState) :
    (tgui_accel_prologue n t).crtc36 = t.crtc36 := by
  rfl

@[simp] theorem prologue_accel_src_x (n : Int) (t : TguiState) :
    (tgui_accel_prologue n t).accel.src_x = t.accel.src_x := by
  rfl

@[simp] theorem prologue_accel_src_y (n : Int) (t : TguiState) :
    (tgui_accel_prologue n t).accel.src_y = t.accel.src_y := by
  rfl

@[simp] theorem prologue_accel_src_x_clip (n : Int) (t : TguiState) :
    (tgui_accel_prologue n t).accel.src_x_clip = t.accel.src_x_clip := by
  rfl

@[simp] theorem prologue_accel_src_y_clip (n : Int) (t : TguiState) :
    (tgui_accel_prologue n t).accel.src_y_clip = t.accel.src_y_clip := by
  rfl

@[simp] theorem prologue_accel_dst_x (n : Int) (t : TguiState) :
    (tgui_accel_prologue n t).accel.dst_x = t.accel.dst_x := by
  rfl

@[simp] theorem prologue_accel_dst_y (n : Int) (t : TguiState) :
    (tgui_accel_prologue n t).accel.dst_y = t.accel.dst_y := by
  rfl

@[simp] theorem prologue_accel_dst_y_clip (n : Int) (t : TguiState) :
    (tgui_accel_prologue n t).accel.dst_y_clip = t.accel.dst_y_clip := by
  rfl

@[simp] theorem prologue_accel_dst_x_clip (n : Int) (t : TguiState) :
    (tgui_accel_prologue n t).accel.dst_x_clip = t.accel.dst_x_clip := by
  rfl

@[simp] theorem prologue_accel_size_x (n : Int) (t : TguiState) :
    (tgui_accel_prologue n t).accel.size_x = t.accel.size_x := by
  rfl

@[simp] theorem prologue_accel_size_y (n : Int) (t : TguiState) :
    (tgui_accel_prologue n t).accel.size_y = t.accel.size_y := by
  rfl

@[simp] theorem prologue_accel_sv_size_y (n : Int) (t : TguiState) :
    (tgui_accel_prologue n t).accel.sv_size_y = t.accel.sv_size_y := by
  rfl

@[simp] theorem prologue_accel_patloc (n : Int) (t : TguiState) :
    (tgui_accel_prologue n t).accel.patloc = t.accel.patloc := by
  rfl

@[simp] theorem prologue_accel_fg_col (n : Int) (t : TguiState) :
    (tgui_accel_prologue n t).accel.fg_col = t.accel.fg_col := by
  rfl

@[simp] theorem prologue_accel_bg_col (n : Int) (t : TguiState) :
    (tgui_accel_prologue n t).accel.bg_col = t.accel.bg_col := by
  rfl

@[simp] theorem prologue_accel_style (n : Int) (t : TguiState) :
    (tgui_accel_prologue n t).accel.style = t.accel.style := by
  rfl

@[simp] theorem prologue_accel_ckey (n : Int) (t : TguiState) :
    (tgui_accel_prologue n t).accel.ckey = t.accel.ckey := by
  rfl

@[simp] theorem prologue_accel_rop (n : Int) (t : TguiState) :
    (tgui_accel_prologue n t).accel.rop = t.accel.rop := by
  rfl

@[simp] theorem prologue_accel_flags (n : Int) (t : TguiState) :
    (tgui_accel_prologue n t).accel.flags = t.accel.flags := by
  rfl

@[simp] theorem prologue_accel_pattern (n : Int) (t : TguiState) :
    (tgui_accel_prologue n t).accel.pattern = t.accel.pattern := by
  rfl

@[simp] theorem prologue_accel_pattern_32bpp (n : Int) (t : TguiState) :
    (tgui_accel_prologue n t).accel.pattern_32bpp = t.accel.pattern_32bpp := by
  rfl

@[simp] theorem prologue_accel_command (n : Int) (t : TguiState) :
    (tgui_accel_prologue n t).accel.command = t.accel.command := by
  rfl

@[simp] theorem prologue_accel_ger22 (n : Int) (t : TguiState) :
    (tgui_accel_prologue n t).accel.ger22 = t.accel.ger22 := by
  rfl

@[simp] theorem prologue_accel_err (n : Int) (t : TguiState) :
    (tgui_accel_prologue n t).accel.err = t.accel.err := by
  rfl

@[simp] theorem prologue_accel_top (n : Int) (t : TguiState) :
    (tgui_accel_prologue n t).accel.top = t.accel.top := by
  rfl

@[simp] theorem prologue_accel_left (n : Int) (t : TguiState) :
    (tgui_accel_prologue n t).accel.left = t.accel.left := by
  rfl

@[simp] theorem prologue_accel_bottom (n : Int) (t : TguiState) :
    (tgui_accel_prologue n t).accel.bottom = t.accel.bottom := by
  rfl

@[simp] theorem prologue_accel_right (n : Int) (t : TguiState) :
    (tgui_accel_prologue n t).accel.right = t.accel.right := by
  rfl

@[simp] theorem prologue_accel_cx (n : Int) (t : TguiState) :
    (tgui_accel_prologue n t).accel.cx = t.accel.cx := by
  rfl

@[simp] theorem prologue_accel_cy (n : Int) (t : TguiState) :
    (tgui_accel_prologue n t).accel.cy = t.accel.cy := by
  rfl

@[simp] theorem prologue_accel_dx (n : Int) (t : TguiState) :
    (tgui_accel_prologue n t).accel.dx = t.accel.dx := by
  rfl

@[simp] theorem prologue_accel_dy (n : Int) (t : TguiState) :
    (tgui_accel_prologue n t).accel.dy = t.accel.dy := by
  rfl

@[simp] theorem prologue_accel_src (n : Int) (t : TguiState) :
    (tgui_accel_prologue n t).accel.src = t.accel.src := by
  rfl

@[simp] theorem prologue_accel_dst (n : Int) (t : TguiState) :
    (tgui_accel_prologue n t).accel.dst = t.accel.dst := by
  rfl

@[simp] theorem prologue_accel_src_old (n : Int) (t : TguiState) :
    (tgui_accel_prologue n t).accel.src_old = t.accel.src_old := by
  rfl

@[simp] theorem prologue_accel_dst_old (n : Int) (t : TguiState) :
    (tgui_accel_prologue n t).accel.dst_old = t.accel.dst_old := by
  rfl

@[simp] theorem prologue_accel_pat_x (n : Int) (t : TguiState) :
    (tgui_accel_prologue n t).accel.pat_x = t.accel.pat_x := by
  rfl

@[simp] theorem prologue_accel_pat_y (n : Int) (t : TguiState) :
    (tgui_accel_prologue n t).accel.pat_y = t.accel.pat_y := by
  rfl

@[simp] theorem prologue_accel_use_src (n : Int) (t : TguiState) :
    (tgui_accel_prologue n t).accel.use_src = t.accel.use_src := by
  rfl

@[simp] theorem prologue_accel_bpp (n : Int) (t : TguiState) :
    (tgui_accel_prologue n t).accel.bpp = t.accel.bpp := by
  rfl

/-! ## C5: the atomic 4-byte command+ROP write -/

/-- A register state used to observe that the atomic dword command write is
not the same as four byte writes: a one-pixel Bresenham draw whose outcome
depends on whether the ROP byte is installed before the command starts. -/
def atomic_demo_state : TguiState :=
  { type := TGUI_9440,
    accel := { rop := 0x00, fg_col := 0xab, dst_x := 2, dst_y := 0, size_y := 0 },
    vram := List.replicate 16 0, vram_mask := 15, rowoffset := 1, svga_bpp := 8 }

/-- C5: a 4-byte write to the combined command+ROP port 0x2124 sets the
command code from the low byte and the ROP code from the top byte of the
written value (recomputing the source-usage flag from the new ROP) and
immediately issues the start invocation `tgui_accel_command (-1) 0`, which
resets the execution context; and this atomic path differs observably from
decomposing the write into four sequential byte writes at ascending
addresses, which would start the command before the new ROP is installed. -/
theorem accel_out_l_atomic (t : TguiState) (val : Nat) (hval : val < 4294967296) :
    (tgui_accel_out_l 0x2124 val t =
      tgui_accel_command (-1) 0
        { t with accel := { t.accel with
            command := val &&& 0xff,
            rop := val >>> 24,
            use_src := ((val >>> 24) &&& 0x33) ^^^ (((val >>> 24) >>> 2) &&& 0x33) } }) ∧
    (tgui_accel_out_l 0x2124 (TGUI_BRESENHAMLINE ||| (0xf0 <<< 24)) atomic_demo_state).vram ≠
      (tgui_accel_out 0x2127 ((TGUI_BRESENHAMLINE ||| (0xf0 <<< 24)) >>> 24)
        (tgui_accel_out 0x2126 ((TGUI_BRESENHAMLINE ||| (0xf0 <<< 24)) >>> 16)
          (tgui_accel_out 0x2125 ((TGUI_BRESENHAMLINE ||| (0xf0 <<< 24)) >>> 8)
            (tgui_accel_out 0x2124 (TGUI_BRESENHAMLINE ||| (0xf0 <<< 24))
              atomic_demo_state)))).vram := by
  constructor
  · have hm : val &&& 0xffffffff = val := by
      have h32 : (0xffffffff : Nat) = 2 ^ 32 - 1 := by norm_num
      rw [h32]
      exact and_mask_eq_self hval
    simp only [tgui_accel_out_l, hm]
    rfl
  · decide

/-- Witness for C5 at `val = 0x5a000004` on the demo state. -/
theorem accel_out_l_atomic_witness :
    tgui_accel_out_l 0x2124 0x5a000004 atomic_demo_state =
      tgui_accel_command (-1) 0
        { atomic_demo_state with accel := { atomic_demo_state.accel with
            command := 0x5a000004 &&& 0xff,
            rop := 0x5a000004 >>> 24,
            use_src := ((0x5a000004 >>> 24) &&& 0x33) ^^^
              (((0x5a000004 >>> 24) >>> 2) &&& 0x33) } } :=
  (accel_out_l_atomic atomic_demo_state 0x5a000004 (by norm_num)).1

/-! ## C6: fast-line direction encoding -/

/-- Modelled from the spec: the compass-octant encoding 0 is +x, 1 is +x,-y,
2 is -y, 3 is -x,-y, 4 is -x, 5 is -x,+y, 6 is +y, 7 is +x,+y (screen y grows
downward, so -y decrements `dy`). -/
def octant_move (code : Nat) (dx dy : Int) : Int × Int :=
  if code = 0 then (dx + 1, dy)
  else if code = 1 then (dx + 1, dy - 1)
  else if code = 2 then (dx, dy - 1)
  else if code = 3 then (dx - 1, dy - 1)
  else if code = 4 then (dx - 1, dy)
  else if code = 5 then (dx - 1, dy + 1)
  else if code = 6 then (dx, dy + 1)
  else if code = 7 then (dx + 1, dy + 1)
  else (dx, dy)

/-- The switch scrutinee `(n >> 8) & 0xe0` is exactly the 3-bit field at bits
13..15 shifted into place. -/
theorem shift8_and_e0 (n : Nat) : (n >>> 8) &&& 0xe0 = ((n >>> 13) &&& 7) <<< 5 := by
  apply Nat.eq_of_testBit_eq
  intro i
  by_cases hi : i < 8
  · interval_cases i <;>
      · simp only [Nat.testBit_land, Nat.testBit_shiftLeft, Nat.testBit_shiftRight]
        norm_num [Nat.testBit_to_div_mod]
  · have h1 : Nat.testBit 0xe0 i = false := by
      apply Nat.testBit_lt_two_pow
      calc (0xe0 : Nat) < 2 ^ 8 := by norm_num
        _ ≤ 2 ^ i := Nat.pow_le_pow_right (by norm_num) (by omega)
    have h2 : (((n >>> 13) &&& 7) <<< 5).testBit i = false := by
      rw [Nat.testBit_shiftLeft]
      have h3 : ((n >>> 13) &&& 7).testBit (i - 5) = false := by
        apply Nat.testBit_lt_two_pow
        calc (n >>> 13) &&& 7 ≤ 7 := Nat.and_le_right
          _ < 2 ^ 3 := by norm_num
          _ ≤ 2 ^ (i - 5) := Nat.pow_le_pow_right (by norm_num) (by omega)
      simp [h3]
    rw [Nat.testBit_land, h1, h2, Bool.and_false]

/-- C6: the fast-line per-step direction is the compass octant selected by
the 3-bit code in bits 13..15 of the size-y register (the bits `(size_y >> 8)
& 0xe0` selects), with the encoding 0 to +x, 1 to +x-y, 2 to -y, 3 to -x-y,
4 to -x, 5 to -x+y, 6 to +y, 7 to +x+y; and the short-vector primitive uses
the identical encoding on its own size register, so the two agree. The
`tgui_accel_command` fast-line arm steps through `fastline_step` at every
pixel on the chips that support the command. -/
theorem fastline_direction_encoding (size_y dx dy : Int) (sv : Nat) :
    fastline_step size_y dx dy = octant_move ((u16 size_y >>> 13) &&& 7) dx dy ∧
    shortvector_step sv dx dy = octant_move ((sv >>> 13) &&& 7) dx dy := by
  constructor
  · unfold fastline_step
    rw [shift8_and_e0]
    have hlt : (u16 size_y >>> 13) &&& 7 < 8 := lt_of_le_of_lt Nat.and_le_right (by norm_num)
    set c := (u16 size_y >>> 13) &&& 7 with hc
    clear_value c
    interval_cases c <;> rfl
  · unfold shortvector_step
    rw [shift8_and_e0]
    have hlt : (sv >>> 13) &&& 7 < 8 := lt_of_le_of_lt Nat.and_le_right (by norm_num)
    set c := (sv >>> 13) &&& 7 with hc
    clear_value c
    interval_cases c <;> rfl

/-! ## C7: fast line on an older chip -/

/-- C7 counterexample state: an in-progress execution context (`x = 5`,
nonzero pattern index) about to receive a fast-line start on a TGUI 9440. -/
def fastline_ctx_state : TguiState :=
  { type := TGUI_9440,
    accel := { command := TGUI_FASTLINE, x := 5, pattern_32_idx := 3 },
    vram := List.replicate 16 0, vram_mask := 15, rowoffset := 1, svga_bpp := 8 }

/-- C7 counterexample: starting the fast-line command on a TGUI 9440 is not a
strict no-op on the accelerator's execution state: the common command-start
prologue still resets the run counter `x` (and the rolling pattern index). -/
theorem fastline_old_chip_not_strict_noop :
    (tgui_accel_command (-1) 0 fastline_ctx_state).accel.x ≠ fastline_ctx_state.accel.x ∧
    (tgui_accel_command (-1) 0 fastline_ctx_state).accel.pattern_32_idx ≠
      fastline_ctx_state.accel.pattern_32_idx := by
  constructor
  · decide
  · decide

/-- C7 (amended): starting the fast-line command on a chip below the TGUI
9660 draws nothing: the framebuffer and every programmable register are left
unchanged and no data is consumed; the invocation reduces to the common
command-start prologue, which only re-initialises the transient execution
context (run counters on a start, pattern caches, pattern index, pitch). -/
theorem fastline_old_chip_noop (c : Int) (d : Nat) (t : TguiState)
    (hcmd : t.accel.command = TGUI_FASTLINE) (htype : t.type < TGUI_9660) :
    tgui_accel_command c d t =
      tgui_accel_prologue
        (if c ≠ -1 ∧ t.accel.x = 0 ∧ t.accel.flags &&& TGUI_SRCMONO ≠ 0 then
          c - (((t.accel.flags >>> 24) &&& 7 : Nat) : Int) else c) t ∧
    (tgui_accel_command c d t).vram = t.vram ∧
    (tgui_accel_command c d t).accel.command = t.accel.command ∧
    (tgui_accel_command c d t).accel.rop = t.accel.rop ∧
    (tgui_accel_command c d t).accel.flags = t.accel.flags ∧
    (tgui_accel_command c d t).accel.fg_col = t.accel.fg_col ∧
    (tgui_accel_command c d t).accel.bg_col = t.accel.bg_col ∧
    (tgui_accel_command c d t).accel.dst_x = t.accel.dst_x ∧
    (tgui_accel_command c d t).accel.dst_y = t.accel.dst_y ∧
    (tgui_accel_command c d t).accel.src_x = t.accel.src_x ∧
    (tgui_accel_command c d t).accel.src_y = t.accel.src_y ∧
    (tgui_accel_command c d t).accel.size_x = t.accel.size_x ∧
    (tgui_accel_command c d t).accel.size_y = t.accel.size_y ∧
    (tgui_accel_command c d t).accel.pattern = t.accel.pattern ∧
    (tgui_accel_command c d t).write_blitter = t.write_blitter := by
  have heq : tgui_accel_command c d t =
      tgui_accel_prologue
        (if c ≠ -1 ∧ t.accel.x = 0 ∧ t.accel.flags &&& TGUI_SRCMONO ≠ 0 then
          c - (((t.accel.flags >>> 24) &&& 7 : Nat) : Int) else c) t := by
    simp only [tgui_accel_command, prologue_accel_command, hcmd,
      TGUI_FASTLINE, TGUI_BITBLT, TGUI_SCANLINE, TGUI_BRESENHAMLINE, TGUI_SHORTVECTOR,
      prologue_type]
    norm_num [htype]
  refine ⟨heq, ?_, ?_, ?_, ?_, ?_, ?_, ?_, ?_, ?_, ?_, ?_, ?_, ?_, ?_⟩ <;>
    rw [heq] <;> simp


/-! ## C3: the clip-policy chip-variant asymmetry -/

/-- C3 demo state: a one-pixel Bresenham draw at destination (2,0) with the
clip rectangle configured as [4,7] x [0,7], so the destination lies outside
the rectangle. -/
def clip_demo_state (chip : Nat) : TguiState :=
  { type := chip,
    accel := { command := TGUI_BRESENHAMLINE, rop := 0xf0, fg_col := 0xab,
               dst_x := 2, dst_y := 0, size_y := 0,
               src_x_clip := 4, dst_x_clip := 7, src_y_clip := 0, dst_y_clip := 7 },
    vram := List.replicate 16 0, vram_mask := 15, rowoffset := 1, svga_bpp := 8 }

/-- C3: with the destination outside the configured clip rectangle (its x is
left of the clip-left bound), the TGUI 9440 still writes the pixel while the
TGUI 9660 suppresses the write and leaves the framebuffer untouched; and the
per-pixel clip guards of both the BitBlt and the line primitives are
identically true on the TGUI 9440 whatever the clip bounds and coordinates
are, i.e. the older generation ignores the clip registers entirely. -/
theorem clip_policy_variant :
    (clip_demo_state TGUI_9440).accel.dst_x % 4096 <
        (clip_demo_state TGUI_9440).accel.src_x_clip % 4096 ∧
    (tgui_accel_command (-1) 0 (clip_demo_state TGUI_9440)).vram =
      [0, 0, 0xab, 0, 0, 0, 0, 0, 0, 0, 0, 0, 0, 0, 0, 0] ∧
    (tgui_accel_command (-1) 0 (clip_demo_state TGUI_9660)).vram =
      (clip_demo_state TGUI_9660).vram ∧
    (∀ a : AccelState, bitblt_clip_ok TGUI_9440 a = true) ∧
    (∀ a : AccelState, line_clip_ok TGUI_9440 a = true) := by
  refine ⟨by decide, by decide, by decide, ?_, ?_⟩
  · intro a
    simp [bitblt_clip_ok, TGUI_9440]
  · intro a
    simp [line_clip_ok, TGUI_9440]

/-! ## C8: framebuffer accesses are always masked in range -/

/-- C8: with a power-of-two VRAM size (mask `2^k - 1`, size at least 4
bytes), every byte address a framebuffer `WRITE` of the command engine
touches is below the VRAM size, a `WRITE` never changes the length of the
framebuffer, and bytes outside the masked target addresses are untouched.
The `READ` macro indexes the same masked element addresses. -/
theorem framebuffer_access_masked (t : TguiState) (addr : Int) (dat : Nat) (k : Nat)
    (hmask : t.vram_mask = 2 ^ k - 1) (hk : 2 ≤ k) :
    (∀ a ∈ write_byte_addrs t.accel.bpp t.vram_mask addr, a < 2 ^ k) ∧
    (WRITE t addr dat).vram.length = t.vram.length ∧
    (∀ j, j ∉ write_byte_addrs t.accel.bpp t.vram_mask addr →
      (WRITE t addr dat).vram.getD j 0 = t.vram.getD j 0) := by
  have hone : 1 ≤ (2 : Nat) ^ (k - 1) := Nat.one_le_two_pow
  have hone2 : 1 ≤ (2 : Nat) ^ (k - 2) := Nat.one_le_two_pow
  have e1 : (2 : Nat) ^ k = 2 * 2 ^ (k - 1) := by
    rw [← pow_succ']
    congr 1
    omega
  have e2 : (2 : Nat) ^ k = 4 * 2 ^ (k - 2) := by
    have : (2 : Nat) ^ k = 2 ^ (2 + (k - 2)) := by congr 1; omega
    rw [this, pow_add]
    norm_num
  have hs1 : t.vram_mask >>> 1 = 2 ^ (k - 1) - 1 := by
    rw [hmask, Nat.shiftRight_eq_div_pow]
    omega
  have hs2 : t.vram_mask >>> 2 = 2 ^ (k - 2) - 1 := by
    rw [hmask, Nat.shiftRight_eq_div_pow]
    have : (2 : Nat) ^ 2 = 4 := by norm_num
    rw [this]
    omega
  have hb0 : ∀ x : Nat, x &&& t.vram_mask < 2 ^ k := by
    intro x
    apply Nat.and_lt_two_pow
    rw [hmask]
    omega
  have hb1 : ∀ x : Nat, x &&& (t.vram_mask >>> 1) ≤ 2 ^ (k - 1) - 1 := by
    intro x
    rw [hs1]
    exact Nat.and_le_right
  have hb2 : ∀ x : Nat, x &&& (t.vram_mask >>> 2) ≤ 2 ^ (k - 2) - 1 := by
    intro x
    rw [hs2]
    exact Nat.and_le_right
  refine ⟨?_, ?_, ?_⟩
  · intro a ha
    unfold write_byte_addrs at ha
    split_ifs at ha with h0 h1
    · simp only [List.mem_singleton] at ha
      subst ha
      exact hb0 _
    · simp only [List.mem_cons, List.mem_singleton, List.not_mem_nil, or_false] at ha
      have := hb1 (u32 addr)
      rcases ha with h | h <;> subst h <;> omega
    · simp only [List.mem_cons, List.mem_singleton, List.not_mem_nil, or_false] at ha
      have := hb2 (u32 addr)
      rcases ha with h | h | h | h <;> subst h <;> omega
  · unfold WRITE
    split_ifs <;> simp
  · intro j hj
    unfold write_byte_addrs at hj
    simp only [WRITE]
    by_cases h0 : t.accel.bpp = 0
    · rw [if_pos h0] at hj
      rw [if_pos h0]
      simp only [List.mem_cons, List.not_mem_nil, or_false] at hj
      simp only [List.getD_eq_getElem?_getD]
      rw [List.getElem?_set_ne (by omega)]
    · by_cases h1 : t.accel.bpp = 1
      · rw [if_neg h0, if_pos h1] at hj
        rw [if_neg h0, if_pos h1]
        simp only [List.mem_cons, List.not_mem_nil, or_false, not_or] at hj
        simp only [List.getD_eq_getElem?_getD]
        rw [List.getElem?_set_ne (by omega), List.getElem?_set_ne (by omega)]
      · rw [if_neg h0, if_neg h1] at hj
        rw [if_neg h0, if_neg h1]
        simp only [List.mem_cons, List.not_mem_nil, or_false, not_or] at hj
        simp only [List.getD_eq_getElem?_getD]
        rw [List.getElem?_set_ne (by omega), List.getElem?_set_ne (by omega),
          List.getElem?_set_ne (by omega), List.getElem?_set_ne (by omega)]

/-- Witness for C8 at bpp class 1, mask 2^4 - 1, address 7. -/
theorem framebuffer_access_masked_witness :
    (∀ a ∈ write_byte_addrs (clip_demo_state TGUI_9440).accel.bpp
        (clip_demo_state TGUI_9440).vram_mask 7, a < 2 ^ 4) ∧
    (WRITE (clip_demo_state TGUI_9440) 7 0xab).vram.length =
      (clip_demo_state TGUI_9440).vram.length ∧
    (∀ j, j ∉ write_byte_addrs (clip_demo_state TGUI_9440).accel.bpp
        (clip_demo_state TGUI_9440).vram_mask 7 →
      (WRITE (clip_demo_state TGUI_9440) 7 0xab).vram.getD j 0 =
        (clip_demo_state TGUI_9440).vram.getD j 0) :=
  framebuffer_access_masked (clip_demo_state TGUI_9440) 7 0xab 4 (by decide) (by norm_num)


/-! ## C10: the colour-key register and the drawing engine -/

/-- Replace the transparency colour-key register, leaving everything else. -/
def setCkey (k : Nat) (t : TguiState) : TguiState :=
  { t with accel := { t.accel with ckey := k } }

@[simp] theorem setCkey_type (k : Nat) (t : TguiState) :
    (setCkey k t).type = t.type := rfl

@[simp] theorem setCkey_vram (k : Nat) (t : TguiState) :
    (setCkey k t).vram = t.vram := rfl

@[simp] theorem setCkey_vram_mask (k : Nat) (t : TguiState) :
    (setCkey k t).vram_mask = t.vram_mask := rfl

@[simp] theorem setCkey_changedvram (k : Nat) (t : TguiState) :
    (setCkey k t).changedvram = t.changedvram := rfl

@[simp] theorem setCkey_changeframecount (k : Nat) (t : TguiState) :
    (setCkey k t).changeframecount = t.changeframecount := rfl

@[simp] theorem setCkey_write_blitter (k : Nat) (t : TguiState) :
    (setCkey k t).write_blitter = t.write_blitter := rfl

@[simp] theorem setCkey_rowoffset (k : Nat) (t : TguiState) :
    (setCkey k t).rowoffset = t.rowoffset := rfl

@[simp] theorem setCkey_svga_bpp (k : Nat) (t : TguiState) :
    (setCkey k t).svga_bpp = t.svga_bpp := rfl

@[simp] theorem setCkey_crtc21 (k : Nat) (t : TguiState) :
    (setCkey k t).crtc21 = t.crtc21 := rfl

@[simp] theorem setCkey_crtc36 (k : Nat) (t : TguiState) :
    (setCkey k t).crtc36 = t.crtc36 := rfl

@[simp] theorem setCkey_accel_src_x (k : Nat) (t : TguiState) :
    (setCkey k t).accel.src_x = t.accel.src_x := rfl

@[simp] theorem setCkey_accel_src_y (k : Nat) (t : TguiState) :
    (setCkey k t).accel.src_y = t.accel.src_y := rfl

@[simp] theorem setCkey_accel_src_x_clip (k : Nat) (t : TguiState) :
    (setCkey k t).accel.src_x_clip = t.accel.src_x_clip := rfl

@[simp] theorem setCkey_accel_src_y_clip (k : Nat) (t : TguiState) :
    (setCkey k t).accel.src_y_clip = t.accel.src_y_clip := rfl

@[simp] theorem setCkey_accel_dst_x (k : Nat) (t : TguiState) :
    (setCkey k t).accel.dst_x = t.accel.dst_x := rfl

@[simp] theorem setCkey_accel_dst_y (k : Nat) (t : TguiState) :
    (setCkey k t).accel.dst_y = t.accel.dst_y := rfl

@[simp] theorem setCkey_accel_dst_y_clip (k : Nat) (t : TguiState) :
    (setCkey k t).accel.dst_y_clip = t.accel.dst_y_clip := rfl

@[simp] theorem setCkey_accel_dst_x_clip (k : Nat) (t : TguiState) :
    (setCkey k t).accel.dst_x_clip = t.accel.dst_x_clip := rfl

@[simp] theorem setCkey_accel_size_x (k : Nat) (t : TguiState) :
    (setCkey k t).accel.size_x = t.accel.size_x := rfl

@[simp] theorem setCkey_accel_size_y (k : Nat) (t : TguiState) :
    (setCkey k t).accel.size_y = t.accel.size_y := rfl

@[simp] theorem setCkey_accel_sv_size_y (k : Nat) (t : TguiState) :
    (setCkey k t).accel.sv_size_y = t.accel.sv_size_y := rfl

@[simp] theorem setCkey_accel_patloc (k : Nat) (t : TguiState) :
    (setCkey k t).accel.patloc = t.accel.patloc := rfl

@[simp] theorem setCkey_accel_fg_col (k : Nat) (t : TguiState) :
    (setCkey k t).accel.fg_col = t.accel.fg_col := rfl

@[simp] theorem setCkey_accel_bg_col (k : Nat) (t : TguiState) :
    (setCkey k t).accel.bg_col = t.accel.bg_col := rfl

@[simp] theorem setCkey_accel_style (k : Nat) (t : TguiState) :
    (setCkey k t).accel.style = t.accel.style := rfl

@[simp] theorem setCkey_accel_rop (k : Nat) (t : TguiState) :
    (setCkey k t).accel.rop = t.accel.rop := rfl

@[simp] theorem setCkey_accel_flags (k : Nat) (t : TguiState) :
    (setCkey k t).accel.flags = t.accel.flags := rfl

@[simp] theorem setCkey_accel_pattern (k : Nat) (t : TguiState) :
    (setCkey k t).accel.pattern = t.accel.pattern := rfl

@[simp] theorem setCkey_accel_pattern_32bpp (k : Nat) (t : TguiState) :
    (setCkey k t).accel.pattern_32bpp = t.accel.pattern_32bpp := rfl

@[simp] theorem setCkey_accel_command (k : Nat) (t : TguiState) :
    (setCkey k t).accel.command = t.accel.command := rfl

@[simp] theorem setCkey_accel_ger22 (k : Nat) (t : TguiState) :
    (setCkey k t).accel.ger22 = t.accel.ger22 := rfl

@[simp] theorem setCkey_accel_err (k : Nat) (t : TguiState) :
    (setCkey k t).accel.err = t.accel.err := rfl

@[simp] theorem setCkey_accel_top (k : Nat) (t : TguiState) :
    (setCkey k t).accel.top = t.accel.top := rfl

@[simp] theorem setCkey_accel_left (k : Nat) (t : TguiState) :
    (setCkey k t).accel.left = t.accel.left := rfl

@[simp] theorem setCkey_accel_bottom (k : Nat) (t : TguiState) :
    (setCkey k t).accel.bottom = t.accel.bottom := rfl

@[simp] theorem setCkey_accel_right (k : Nat) (t : TguiState) :
    (setCkey k t).accel.right = t.accel.right := rfl

@[simp] theorem setCkey_accel_x (k : Nat) (t : TguiState) :
    (setCkey k t).accel.x = t.accel.x := rfl

@[simp] theorem setCkey_accel_y (k : Nat) (t : TguiState) :
    (setCkey k t).accel.y = t.accel.y := rfl

@[simp] theorem setCkey_accel_cx (k : Nat) (t : TguiState) :
    (setCkey k t).accel.cx = t.accel.cx := rfl

@[simp] theorem setCkey_accel_cy (k : Nat) (t : TguiState) :
    (setCkey k t).accel.cy = t.accel.cy := rfl

@[simp] theorem setCkey_accel_dx (k : Nat) (t : TguiState) :
    (setCkey k t).accel.dx = t.accel.dx := rfl

@[simp] theorem setCkey_accel_dy (k : Nat) (t : TguiState) :
    (setCkey k t).accel.dy = t.accel.dy := rfl

@[simp] theorem setCkey_accel_src (k : Nat) (t : TguiState) :
    (setCkey k t).accel.src = t.accel.src := rfl

@[simp] theorem setCkey_accel_dst (k : Nat) (t : TguiState) :
    (setCkey k t).accel.dst = t.accel.dst := rfl

@[simp] theorem setCkey_accel_src_old (k : Nat) (t : TguiState) :
    (setCkey k t).accel.src_old = t.accel.src_old := rfl

@[simp] theorem setCkey_accel_dst_old (k : Nat) (t : TguiState) :
    (setCkey k t).accel.dst_old = t.accel.dst_old := rfl

@[simp] theorem setCkey_accel_pat_x (k : Nat) (t : TguiState) :
    (setCkey k t).accel.pat_x = t.accel.pat_x := rfl

@[simp] theorem setCkey_accel_pat_y (k : Nat) (t : TguiState) :
    (setCkey k t).accel.pat_y = t.accel.pat_y := rfl

@[simp] theorem setCkey_accel_use_src (k : Nat) (t : TguiState) :
    (setCkey k t).accel.use_src = t.accel.use_src := rfl

@[simp] theorem setCkey_accel_pitch (k : Nat) (t : TguiState) :
    (setCkey k t).accel.pitch = t.accel.pitch := rfl

@[simp] theorem setCkey_accel_bpp (k : Nat) (t : TguiState) :
    (setCkey k t).accel.bpp = t.accel.bpp := rfl

@[simp] theorem setCkey_accel_fill_pattern (k : Nat) (t : TguiState) :
    (setCkey k t).accel.fill_pattern = t.accel.fill_pattern := rfl

@[simp] theorem setCkey_accel_mono_pattern (k : Nat) (t : TguiState) :
    (setCkey k t).accel.mono_pattern = t.accel.mono_pattern := rfl

@[simp] theorem setCkey_accel_pattern_8 (k : Nat) (t : TguiState) :
    (setCkey k t).accel.pattern_8 = t.accel.pattern_8 := rfl

@[simp] theorem setCkey_accel_pattern_16 (k : Nat) (t : TguiState) :
    (setCkey k t).accel.pattern_16 = t.accel.pattern_16 := rfl

@[simp] theorem setCkey_accel_pattern_32 (k : Nat) (t : TguiState) :
    (setCkey k t).accel.pattern_32 = t.accel.pattern_32 := rfl

@[simp] theorem setCkey_accel_pattern_32_idx (k : Nat) (t : TguiState) :
    (setCkey k t).accel.pattern_32_idx = t.accel.pattern_32_idx := rfl

@[simp] theorem setCkey_accel_ckey (k : Nat) (t : TguiState) :
    (setCkey k t).accel.ckey = k := rfl

@[simp] theorem bitblt_clip_ok_setCkey (c : Nat) (k : Nat) (t : TguiState) :
    bitblt_clip_ok c (setCkey k t).accel = bitblt_clip_ok c t.accel := rfl

@[simp] theorem line_clip_ok_setCkey (c : Nat) (k : Nat) (t : TguiState) :
    line_clip_ok c (setCkey k t).accel = line_clip_ok c t.accel := rfl

@[simp] theorem READ_setCkey (a : Int) (k : Nat) (t : TguiState) :
    READ (setCkey k t) a = READ t a := rfl

@[simp] theorem WRITE_setCkey (a : Int) (d : Nat) (k : Nat) (t : TguiState) :
    WRITE (setCkey k t) a d = setCkey k (WRITE t a d) := by
  simp only [WRITE, setCkey_accel_bpp, setCkey_vram, setCkey_vram_mask,
    setCkey_changedvram, setCkey_changeframecount]
  split_ifs <;> rfl

@[simp] theorem blit_draw_setCkey (c : Bool) (pd : List Nat) (s : Nat) (k : Nat) (t : TguiState) :
    blit_draw c pd s (setCkey k t) = setCkey k (blit_draw c pd s t) := by
  simp only [blit_draw, READ_setCkey, WRITE_setCkey, setCkey_accel_bpp,
    setCkey_accel_pat_x, setCkey_accel_pat_y, setCkey_accel_rop, setCkey_accel_dst]
  split_ifs <;> rfl

@[simp] theorem blit_advance_setCkey (x : Int) (k : Nat) (t : TguiState) :
    blit_advance x (setCkey k t) = setCkey k (blit_advance x t) := rfl

@[simp] theorem blit_row_wrap_setCkey (y : Int) (k : Nat) (t : TguiState) :
    blit_row_wrap y (setCkey k t) = setCkey k (blit_row_wrap y t) := rfl

@[simp] theorem blit_row_wrap_default_setCkey (y : Int) (k : Nat) (t : TguiState) :
    blit_row_wrap_default y (setCkey k t) = setCkey k (blit_row_wrap_default y t) := rfl

@[simp] theorem blit_done_setCkey (k : Nat) (t : TguiState) :
    blit_done (setCkey k t) = setCkey k (blit_done t) := by
  simp only [blit_done, setCkey_crtc21]
  split_ifs <;> rfl

@[simp] theorem blit_begin_setCkey (k : Nat) (t : TguiState) :
    blit_begin (setCkey k t) = setCkey k (blit_begin t) := by
  simp only [blit_begin, setCkey_crtc21]
  split_ifs <;> rfl

@[simp] theorem blit_general_pixel_setCkey (x : Int) (tc : Nat) (pd : List Nat) (k : Nat) (t : TguiState) :
    blit_general_pixel x tc pd (setCkey k t) = setCkey k (blit_general_pixel x tc pd t) := by
  simp only [blit_general_pixel, READ_setCkey, WRITE_setCkey, setCkey_accel_bpp,
    setCkey_accel_pat_x, setCkey_accel_pat_y, setCkey_accel_rop, setCkey_accel_dst,
    setCkey_accel_src, setCkey_accel_flags]
  split_ifs <;> rfl

@[simp] theorem scanline_row_wrap_setCkey (y : Int) (k : Nat) (t : TguiState) :
    scanline_row_wrap y (setCkey k t) = setCkey k (scanline_row_wrap y t) := rfl

@[simp] theorem line_draw_setCkey (k : Nat) (t : TguiState) :
    line_draw (setCkey k t) = setCkey k (line_draw t) := by
  simp only [line_draw, line_clip_ok_setCkey, READ_setCkey, WRITE_setCkey,
    setCkey_accel_dx, setCkey_accel_dy, setCkey_accel_pitch, setCkey_accel_rop,
    setCkey_accel_fg_col, setCkey_type]
  split_ifs <;> rfl

@[simp] theorem line_mask_step_setCkey (k : Nat) (t : TguiState) :
    line_mask_step (setCkey k t) = setCkey k (line_mask_step t) := rfl

@[simp] theorem bres_step_update_setCkey (k : Nat) (t : TguiState) :
    bres_step_update (setCkey k t) = setCkey k (bres_step_update t) := by
  simp only [bres_step_update, setCkey_accel_size_x, setCkey_accel_src_x,
    setCkey_accel_src_y, setCkey_accel_dx, setCkey_accel_dy, setCkey_accel_flags]
  split_ifs <;> rfl

@[simp] theorem sv_step_update_setCkey (k : Nat) (t : TguiState) :
    sv_step_update (setCkey k t) = setCkey k (sv_step_update t) := rfl

@[simp] theorem fl_step_update_setCkey (k : Nat) (t : TguiState) :
    fl_step_update (setCkey k t) = setCkey k (fl_step_update t) := rfl



@[simp] theorem trans_col_calc_setCkey (k : Nat) (t : TguiState) :
    trans_col_calc (setCkey k t) = trans_col_calc t := rfl

@[simp] theorem pattern_data_sel_setCkey (k : Nat) (t : TguiState) :
    pattern_data_sel (setCkey k t) = pattern_data_sel t := rfl

set_option maxHeartbeats 2000000 in
@[simp] theorem prologue_setCkey (n : Int) (k : Nat) (t : TguiState) :
    tgui_accel_prologue n (setCkey k t) = setCkey k (tgui_accel_prologue n t) := by
  simp only [tgui_accel_prologue, setCkey_accel_flags, setCkey_accel_bpp,
    setCkey_accel_fg_col, setCkey_accel_bg_col, setCkey_accel_pattern,
    setCkey_accel_pattern_32bpp, setCkey_accel_x, setCkey_accel_y,
    setCkey_accel_fill_pattern, setCkey_accel_mono_pattern, setCkey_accel_pattern_8,
    setCkey_accel_pattern_16, setCkey_accel_pattern_32, setCkey_rowoffset,
    setCkey_svga_bpp]
  split_ifs <;> rfl

@[simp] theorem bitblt_init_setCkey (k : Nat) (t : TguiState) :
    bitblt_init (setCkey k t) = setCkey k (bitblt_init t) := rfl

@[simp] theorem line_init_setCkey (yv : Int) (k : Nat) (t : TguiState) :
    line_init yv (setCkey k t) = setCkey k (line_init yv t) := rfl

@[simp] theorem scanline_init_setCkey (k : Nat) (t : TguiState) :
    scanline_init (setCkey k t) = setCkey k (scanline_init t) := rfl

theorem ite_setCkey (k : Nat) (c : Prop) [Decidable c] (a b : TguiState) :
    (if c then setCkey k a else setCkey k b) = setCkey k (if c then a else b) :=
  (apply_ite (setCkey k) c a b).symm

theorem fst_ite {α β : Type} (c : Prop) [Decidable c] (a b : α × β) :
    (if c then a else b).1 = if c then a.1 else b.1 :=
  apply_ite Prod.fst c a b

theorem snd_ite {α β : Type} (c : Prop) [Decidable c] (a b : α × β) :
    (if c then a else b).2 = if c then a.2 else b.2 :=
  apply_ite Prod.snd c a b

set_option maxHeartbeats 2000000 in
theorem bitblt_cpu_loop_setCkey (fuel : Nat) (cnt : Int) (cpu : Nat) (xdir ydir : Int)
    (tc : Nat) (pd : List Nat) (k : Nat) (t : TguiState) :
    bitblt_cpu_loop fuel cnt cpu xdir ydir tc pd (setCkey k t) =
      setCkey k (bitblt_cpu_loop fuel cnt cpu xdir ydir tc pd t) := by
  induction fuel generalizing cnt cpu t with
  | zero => rfl
  | succ n ih =>
    simp only [bitblt_cpu_loop, setCkey_type, setCkey_accel_bpp, setCkey_accel_flags,
      setCkey_accel_ger22, setCkey_accel_pat_x, setCkey_accel_pat_y, setCkey_accel_size_x,
      setCkey_accel_size_y, setCkey_accel_x, setCkey_accel_y, setCkey_accel_use_src,
      setCkey_crtc21, bitblt_clip_ok_setCkey, blit_draw_setCkey, fst_ite, snd_ite,
      ite_setCkey, blit_advance_setCkey, blit_row_wrap_setCkey, blit_done_setCkey, ih]

set_option maxHeartbeats 2000000 in
theorem bitblt_mono_loop_setCkey (fuel : Nat) (cnt : Int) (cpu : Nat) (xdir ydir : Int)
    (tc : Nat) (pd : List Nat) (k : Nat) (t : TguiState) :
    bitblt_mono_loop fuel cnt cpu xdir ydir tc pd (setCkey k t) =
      setCkey k (bitblt_mono_loop fuel cnt cpu xdir ydir tc pd t) := by
  induction fuel generalizing cnt cpu t with
  | zero => rfl
  | succ n ih =>
    simp only [bitblt_mono_loop, setCkey_type, setCkey_accel_bpp, setCkey_accel_flags,
      setCkey_accel_fg_col, setCkey_accel_bg_col, setCkey_accel_size_x, setCkey_accel_size_y,
      setCkey_accel_x, setCkey_accel_y, setCkey_accel_use_src, setCkey_crtc21,
      bitblt_clip_ok_setCkey, blit_draw_setCkey, ite_setCkey, blit_advance_setCkey,
      blit_row_wrap_setCkey, blit_done_setCkey, ih]

set_option maxHeartbeats 2000000 in
theorem bitblt_default_loop_setCkey (fuel : Nat) (cnt : Int) (xdir ydir : Int)
    (tc : Nat) (pd : List Nat) (k : Nat) (t : TguiState) :
    bitblt_default_loop fuel cnt xdir ydir tc pd (setCkey k t) =
      setCkey k (bitblt_default_loop fuel cnt xdir ydir tc pd t) := by
  induction fuel generalizing cnt t with
  | zero => rfl
  | succ n ih =>
    simp only [bitblt_default_loop, setCkey_accel_size_x, setCkey_accel_size_y,
      setCkey_accel_x, setCkey_accel_y, blit_general_pixel_setCkey, ite_setCkey,
      blit_row_wrap_default_setCkey, ih]

set_option maxHeartbeats 2000000 in
theorem scanline_loop_setCkey (fuel : Nat) (cnt : Int) (xdir ydir : Int)
    (tc : Nat) (pd : List Nat) (k : Nat) (t : TguiState) :
    scanline_loop fuel cnt xdir ydir tc pd (setCkey k t) =
      setCkey k (scanline_loop fuel cnt xdir ydir tc pd t) := by
  induction fuel generalizing cnt t with
  | zero => rfl
  | succ n ih =>
    simp only [scanline_loop, setCkey_accel_size_x, setCkey_accel_x,
      blit_general_pixel_setCkey, ite_setCkey, scanline_row_wrap_setCkey, ih]

set_option maxHeartbeats 2000000 in
theorem bresenham_loop_setCkey (fuel : Nat) (cnt : Int) (k : Nat) (t : TguiState) :
    bresenham_loop fuel cnt (setCkey k t) = setCkey k (bresenham_loop fuel cnt t) := by
  induction fuel generalizing cnt t with
  | zero => rfl
  | succ n ih =>
    simp only [bresenham_loop, setCkey_accel_y, line_draw_setCkey, ite_setCkey,
      line_mask_step_setCkey, bres_step_update_setCkey, ih]

set_option maxHeartbeats 2000000 in
theorem shortvector_loop_setCkey (fuel : Nat) (cnt : Int) (k : Nat) (t : TguiState) :
    shortvector_loop fuel cnt (setCkey k t) = setCkey k (shortvector_loop fuel cnt t) := by
  induction fuel generalizing cnt t with
  | zero => rfl
  | succ n ih =>
    simp only [shortvector_loop, setCkey_accel_y, line_draw_setCkey, ite_setCkey,
      line_mask_step_setCkey, sv_step_update_setCkey, ih]

set_option maxHeartbeats 2000000 in
theorem fastline_loop_setCkey (fuel : Nat) (cnt : Int) (k : Nat) (t : TguiState) :
    fastline_loop fuel cnt (setCkey k t) = setCkey k (fastline_loop fuel cnt t) := by
  induction fuel generalizing cnt t with
  | zero => rfl
  | succ n ih =>
    simp only [fastline_loop, setCkey_accel_y, line_draw_setCkey, ite_setCkey,
      line_mask_step_setCkey, fl_step_update_setCkey, ih]

set_option maxHeartbeats 2000000 in
theorem tgui_accel_command_setCkey (c : Int) (v k : Nat) (t : TguiState) :
    tgui_accel_command c v (setCkey k t) = setCkey k (tgui_accel_command c v t) := by
  simp only [tgui_accel_command, setCkey_accel_flags, setCkey_accel_x,
    setCkey_accel_command, setCkey_accel_use_src, setCkey_accel_size_y,
    setCkey_accel_sv_size_y, setCkey_type, trans_col_calc_setCkey, prologue_setCkey,
    pattern_data_sel_setCkey, bitblt_init_setCkey, scanline_init_setCkey,
    line_init_setCkey, blit_begin_setCkey, ite_setCkey, bitblt_cpu_loop_setCkey,
    bitblt_mono_loop_setCkey, bitblt_default_loop_setCkey, scanline_loop_setCkey,
    bresenham_loop_setCkey, shortvector_loop_setCkey, fastline_loop_setCkey]

/-- C10 counterexample state: a TGUI 9660 one-pixel line whose destination is
inside the clip rectangle [0,7] x [0,7]. -/
def ckey_demo_state : TguiState :=
  { clip_demo_state TGUI_9660 with
    accel := { (clip_demo_state TGUI_9660).accel with src_x_clip := 0 } }

/-- C10 counterexample: the registers at offsets +0x48..0x4B are the clip
bounds, not the transparency colour key (which the write does not touch):
two states differing only by one byte written at +0x48 produce different
framebuffer contents under the same command on a TGUI 9660. -/
theorem offset48_consulted_by_engine :
    (tgui_accel_out 0x2148 4 ckey_demo_state).accel.ckey = ckey_demo_state.accel.ckey ∧
    (tgui_accel_command (-1) 0 (tgui_accel_out 0x2148 4 ckey_demo_state)).vram ≠
      (tgui_accel_command (-1) 0 ckey_demo_state).vram := by
  refine ⟨by decide, by decide⟩

/-- C10 (amended): the transparency colour-key register lives at offsets
+0x68..0x6B; it is only stored and read back and never consulted by the
drawing engine. Two states differing only in the colour key produce
identical framebuffer contents under every command invocation; the
transparency comparison instead uses the foreground or background colour
register selected by the reverse flag; and the +0x68 write/read paths only
store and return the key. -/
theorem ckey_never_consulted (c : Int) (v k1 k2 : Nat) (t : TguiState) :
    (tgui_accel_command c v (setCkey k1 t)).vram =
      (tgui_accel_command c v (setCkey k2 t)).vram ∧
    trans_col_calc t = bpp_mask t.accel.bpp
      (if t.accel.flags &&& TGUI_TRANSREV ≠ 0 then t.accel.fg_col else t.accel.bg_col) ∧
    tgui_accel_out 0x2168 v t = setCkey ((t.accel.ckey &&& 0xffffff00) ||| (v &&& 0xff)) t ∧
    tgui_accel_in 0x2168 t = t.accel.ckey &&& 0xff := by
  refine ⟨?_, rfl, rfl, rfl⟩
  rw [tgui_accel_command_setCkey, tgui_accel_command_setCkey]
  rfl


/-! ## C9: machinery for the solid-fill idempotence proof -/

/-- The framebuffer effect of one `WRITE`, as a function of the byte list. -/
def write_vram_of (bpp mask : Nat) (addr : Int) (dat : Nat) (v : List Nat) : List Nat :=
  if bpp = 0 then v.set (u32 addr &&& mask) (dat &&& 0xff)
  else if bpp = 1 then
    let i := u32 addr &&& (mask >>> 1)
    (v.set (2 * i) (dat &&& 0xff)).set (2 * i + 1) ((dat >>> 8) &&& 0xff)
  else
    let i := u32 addr &&& (mask >>> 2)
    (((v.set (4 * i) (dat &&& 0xff)).set (4 * i + 1) ((dat >>> 8) &&& 0xff)).set
      (4 * i + 2) ((dat >>> 16) &&& 0xff)).set (4 * i + 3) ((dat >>> 24) &&& 0xff)

/-- The change-tracking effect of one `WRITE`. -/
def write_cv_of (bpp mask : Nat) (addr : Int) (cfc : Nat) (cv : Nat → Nat) : Nat → Nat :=
  if bpp = 0 then
    fun j => if j = (u32 addr &&& mask) >>> 12 then cfc else cv j
  else if bpp = 1 then
    fun j => if j = (u32 addr &&& (mask >>> 1)) >>> 11 then cfc else cv j
  else
    fun j => if j = (u32 addr &&& (mask >>> 2)) >>> 10 then cfc else cv j

theorem WRITE_decompose (t : TguiState) (addr : Int) (dat : Nat) :
    WRITE t addr dat =
      { t with vram := write_vram_of t.accel.bpp t.vram_mask addr dat t.vram,
               changedvram := write_cv_of t.accel.bpp t.vram_mask addr t.changeframecount
                 t.changedvram } := by
  simp only [WRITE, write_vram_of, write_cv_of]
  split_ifs <;> rfl

theorem write_vram_of_length (bpp mask : Nat) (addr : Int) (dat : Nat) (v : List Nat) :
    (write_vram_of bpp mask addr dat v).length = v.length := by
  simp only [write_vram_of]
  split_ifs <;> simp

/-- A byte outside the masked target addresses is untouched by the write. -/
theorem write_vram_of_getD_notMem (bpp mask : Nat) (addr : Int) (dat : Nat) (v : List Nat)
    (j : Nat) (hj : j ∉ write_byte_addrs bpp mask addr) :
    (write_vram_of bpp mask addr dat v).getD j 0 = v.getD j 0 := by
  unfold write_byte_addrs at hj
  simp only [write_vram_of]
  by_cases h0 : bpp = 0
  · rw [if_pos h0] at hj
    rw [if_pos h0]
    simp only [List.mem_cons, List.not_mem_nil, or_false] at hj
    simp only [List.getD_eq_getElem?_getD]
    rw [List.getElem?_set_ne (by omega)]
  · by_cases h1 : bpp = 1
    · rw [if_neg h0, if_pos h1] at hj
      rw [if_neg h0, if_pos h1]
      simp only [List.mem_cons, List.not_mem_nil, or_false, not_or] at hj
      simp only [List.getD_eq_getElem?_getD]
      rw [List.getElem?_set_ne (by omega), List.getElem?_set_ne (by omega)]
    · rw [if_neg h0, if_neg h1] at hj
      rw [if_neg h0, if_neg h1]
      simp only [List.mem_cons, List.not_mem_nil, or_false, not_or] at hj
      simp only [List.getD_eq_getElem?_getD]
      rw [List.getElem?_set_ne (by omega), List.getElem?_set_ne (by omega),
        List.getElem?_set_ne (by omega), List.getElem?_set_ne (by omega)]

theorem getD_set_self (l : List Nat) (i a : Nat) :
    (l.set i a).getD i 0 = if i < l.length then a else 0 := by
  by_cases h : i < l.length
  · simp [List.getD_eq_getElem?_getD, List.getElem?_set_self, h]
  · rw [if_neg h, List.getD_eq_getElem?_getD,
      List.getElem?_eq_none (by simpa using Nat.le_of_not_lt h)]
    rfl

theorem getD_set_ne (l : List Nat) (i j a : Nat) (h : i ≠ j) :
    (l.set i a).getD j 0 = l.getD j 0 := by
  rw [List.getD_eq_getElem?_getD, List.getElem?_set_ne h, ← List.getD_eq_getElem?_getD]

/-- A byte inside the masked target addresses receives a value that does not
depend on the previous framebuffer contents (for bases of equal length). -/
theorem write_vram_of_getD_mem (bpp mask : Nat) (addr : Int) (dat : Nat)
    (v1 v2 : List Nat) (hlen : v1.length = v2.length) (j : Nat)
    (hj : j ∈ write_byte_addrs bpp mask addr) :
    (write_vram_of bpp mask addr dat v1).getD j 0 =
      (write_vram_of bpp mask addr dat v2).getD j 0 := by
  unfold write_byte_addrs at hj
  simp only [write_vram_of]
  by_cases h0 : bpp = 0
  · simp only [if_pos h0] at hj ⊢
    simp only [List.mem_cons, List.not_mem_nil, or_false] at hj
    subst hj
    rw [getD_set_self, getD_set_self, hlen]
  · by_cases h1 : bpp = 1
    · simp only [if_neg h0, if_pos h1] at hj ⊢
      simp only [List.mem_cons, List.not_mem_nil, or_false] at hj
      have e1 : ∀ (v : List Nat) (d : Nat),
          (v.set (2 * (u32 addr &&& mask >>> 1) + 1) d).getD (2 * (u32 addr &&& mask >>> 1)) 0 =
            v.getD (2 * (u32 addr &&& mask >>> 1)) 0 :=
        fun v d => getD_set_ne v _ _ d (by omega)
      rcases hj with hj | hj <;> subst hj
      · simp only [e1]
        rw [getD_set_self, getD_set_self]
        simp only [List.length_set, hlen]
      · rw [getD_set_self, getD_set_self]
        simp only [List.length_set, hlen]
    · simp only [if_neg h0, if_neg h1] at hj ⊢
      simp only [List.mem_cons, List.not_mem_nil, or_false] at hj
      have e30 : ∀ (v : List Nat) (d : Nat) (j : Nat), j ∈ [4 * (u32 addr &&& mask >>> 2),
            4 * (u32 addr &&& mask >>> 2) + 1, 4 * (u32 addr &&& mask >>> 2) + 2] →
          (v.set (4 * (u32 addr &&& mask >>> 2) + 3) d).getD j 0 = v.getD j 0 := by
        intro v d j hjm
        simp only [List.mem_cons, List.not_mem_nil, or_false] at hjm
        exact getD_set_ne v _ _ d (by omega)
      have e31 : ∀ (v : List Nat) (d : Nat) (j : Nat), j ∈ [4 * (u32 addr &&& mask >>> 2),
            4 * (u32 addr &&& mask >>> 2) + 1] →
          (v.set (4 * (u32 addr &&& mask >>> 2) + 2) d).getD j 0 = v.getD j 0 := by
        intro v d j hjm
        simp only [List.mem_cons, List.not_mem_nil, or_false] at hjm
        exact getD_set_ne v _ _ d (by omega)
      have e32 : ∀ (v : List Nat) (d : Nat),
          (v.set (4 * (u32 addr &&& mask >>> 2) + 1) d).getD (4 * (u32 addr &&& mask >>> 2)) 0 =
            v.getD (4 * (u32 addr &&& mask >>> 2)) 0 :=
        fun v d => getD_set_ne v _ _ d (by omega)
      rcases hj with hj | hj | hj | hj <;> subst hj
      · rw [e30 _ _ _ (by simp), e30 _ _ _ (by simp), e31 _ _ _ (by simp),
          e31 _ _ _ (by simp), e32, e32, getD_set_self, getD_set_self]
        simp only [List.length_set, hlen]
      · rw [e30 _ _ _ (by simp), e30 _ _ _ (by simp), e31 _ _ _ (by simp),
          e31 _ _ _ (by simp), getD_set_self, getD_set_self]
        simp only [List.length_set, hlen]
      · rw [e30 _ _ _ (by simp), e30 _ _ _ (by simp), getD_set_self, getD_set_self]
        simp only [List.length_set, hlen]
      · rw [getD_set_self, getD_set_self]
        simp only [List.length_set, hlen]

/-- Replace the three fields the CPU-blit loop may change besides the
execution scratch: framebuffer, change tracking and the aperture latch. -/
def setVolatile (v : List Nat) (cv : Nat → Nat) (wb : Bool) (t : TguiState) : TguiState :=
  { t with vram := v, changedvram := cv, write_blitter := wb }

@[simp] theorem setVolatile_type (v : List Nat) (cv : Nat → Nat) (wb : Bool) (t : TguiState) :
    (setVolatile v cv wb t).type = t.type := rfl

@[simp] theorem setVolatile_vram_mask (v : List Nat) (cv : Nat → Nat) (wb : Bool) (t : TguiState) :
    (setVolatile v cv wb t).vram_mask = t.vram_mask := rfl

@[simp] theorem setVolatile_changeframecount (v : List Nat) (cv : Nat → Nat) (wb : Bool) (t : TguiState) :
    (setVolatile v cv wb t).changeframecount = t.changeframecount := rfl

@[simp] theorem setVolatile_rowoffset (v : List Nat) (cv : Nat → Nat) (wb : Bool) (t : TguiState) :
    (setVolatile v cv wb t).rowoffset = t.rowoffset := rfl

@[simp] theorem setVolatile_svga_bpp (v : List Nat) (cv : Nat → Nat) (wb : Bool) (t : TguiState) :
    (setVolatile v cv wb t).svga_bpp = t.svga_bpp := rfl

@[simp] theorem setVolatile_crtc21 (v : List Nat) (cv : Nat → Nat) (wb : Bool) (t : TguiState) :
    (setVolatile v cv wb t).crtc21 = t.crtc21 := rfl

@[simp] theorem setVolatile_crtc36 (v : List Nat) (cv : Nat → Nat) (wb : Bool) (t : TguiState) :
    (setVolatile v cv wb t).crtc36 = t.crtc36 := rfl

@[simp] theorem setVolatile_vram (v : List Nat) (cv : Nat → Nat) (wb : Bool) (t : TguiState) :
    (setVolatile v cv wb t).vram = v := rfl

@[simp] theorem setVolatile_changedvram (v : List Nat) (cv : Nat → Nat) (wb : Bool) (t : TguiState) :
    (setVolatile v cv wb t).changedvram = cv := rfl

@[simp] theorem setVolatile_write_blitter (v : List Nat) (cv : Nat → Nat) (wb : Bool) (t : TguiState) :
    (setVolatile v cv wb t).write_blitter = wb := rfl

@[simp] theorem setVolatile_accel (v : List Nat) (cv : Nat → Nat) (wb : Bool) (t : TguiState) :
    (setVolatile v cv wb t).accel = t.accel := rfl

@[simp] theorem setVolatile_setVolatile (v v' : List Nat) (cv cv' : Nat → Nat)
    (wb wb' : Bool) (t : TguiState) :
    setVolatile v cv wb (setVolatile v' cv' wb' t) = setVolatile v cv wb t := rfl

@[simp] theorem bitblt_clip_ok_setVolatile (c : Nat) (v : List Nat) (cv : Nat → Nat)
    (wb : Bool) (t : TguiState) :
    bitblt_clip_ok c (setVolatile v cv wb t).accel = bitblt_clip_ok c t.accel := rfl

@[simp] theorem blit_advance_setVolatile (x : Int) (v : List Nat) (cv : Nat → Nat)
    (wb : Bool) (t : TguiState) :
    blit_advance x (setVolatile v cv wb t) = setVolatile v cv wb (blit_advance x t) := rfl

@[simp] theorem blit_row_wrap_setVolatile (y : Int) (v : List Nat) (cv : Nat → Nat)
    (wb : Bool) (t : TguiState) :
    blit_row_wrap y (setVolatile v cv wb t) = setVolatile v cv wb (blit_row_wrap y t) := rfl

@[simp] theorem blit_done_setVolatile (v : List Nat) (cv : Nat → Nat) (wb : Bool)
    (t : TguiState) :
    blit_done (setVolatile v cv wb t) =
      setVolatile v cv (if t.crtc21 &&& 0x20 ≠ 0 then false else wb) t := by
  simp only [blit_done, setVolatile_crtc21]
  split_ifs <;> rfl

theorem ite_setVolatile (c : Prop) [Decidable c] (v1 v2 : List Nat) (cv1 cv2 : Nat → Nat)
    (wb : Bool) (t : TguiState) :
    (if c then setVolatile v1 cv1 wb t else setVolatile v2 cv2 wb t) =
      setVolatile (if c then v1 else v2) (if c then cv1 else cv2) wb t := by
  split_ifs <;> rfl

/-- Raster operation 0xF0 is the plain pattern copy. -/
theorem ROPMIX_f0 (D P S : Nat) : ROPMIX 0xf0 D P S = P := rfl

/-- With ROP 0xF0 the guarded BitBlt draw writes the pattern pixel: the value
stored does not depend on the framebuffer contents. -/
theorem blit_draw_setVolatile_f0 (c : Bool) (pd : List Nat) (sdat : Nat)
    (v : List Nat) (cv : Nat → Nat) (wb : Bool) (t : TguiState)
    (hrop : t.accel.rop = 0xf0) :
    blit_draw c pd sdat (setVolatile v cv wb t) =
      setVolatile
        (if c then write_vram_of t.accel.bpp t.vram_mask (t.accel.dst : Int)
            (bpp_mask t.accel.bpp (pat_lookup pd t.accel.pat_x t.accel.pat_y)) v
          else v)
        (if c then write_cv_of t.accel.bpp t.vram_mask (t.accel.dst : Int)
            t.changeframecount cv
          else cv)
        wb t := by
  simp only [blit_draw, setVolatile_accel, WRITE_decompose, hrop, ROPMIX_f0]
  split_ifs <;> rfl

end Tgui
